import Mathlib

/-!
Verification development for the WebTermux virtual-terminal core:
the virtual filesystem store (the `MemStorage` class of the storage
module), the path resolver and the command interpreter
(`TerminalProcessor` in the server routes module).

The interpreter is embedded shallowly: each handler method becomes a
Lean function on an explicit processor state.  JavaScript strings are
modelled as Lean `String` (lengths count characters; the sources only
ever measure ASCII text).  Nondeterministic cosmetic values (clock
strings, random resource figures, runtime exception texts) are supplied
through an `Env` record, since they are inputs to the computation.
Fallible handlers (those that can hit a JavaScript `TypeError` on an
`undefined` value) return `Except String`, mirroring the thrown
exception that `executeCommand` catches.
-/

namespace WebTermux

/-- JavaScript `String.prototype.trim` (structural, so that concrete
executions reduce in the kernel). -/
def jsTrim (s : String) : String :=
  String.mk (((s.toList.dropWhile Char.isWhitespace).reverse.dropWhile Char.isWhitespace).reverse)

/-- Splitting accumulator for `splitPred`. -/
def splitPredGo (p : Char → Bool) : List Char → List Char → List String
  | [], acc => [String.mk acc.reverse]
  | h :: t, acc =>
    if p h then String.mk acc.reverse :: splitPredGo p t []
    else splitPredGo p t (h :: acc)

/-- Split a string at every character satisfying `p` (the separators are
dropped; empty fields are kept, as in JavaScript `split`). -/
def splitPred (s : String) (p : Char → Bool) : List String :=
  splitPredGo p s.toList []

/-- `s.split(c)` for a single-character separator (every separator in the
sources — `'/'`, `':'`, `'\n'` — is a single character). -/
def splitOnChar (s : String) (c : Char) : List String :=
  splitPred s (fun x => x = c)

/-- `String.prototype.startsWith`. -/
def strStartsWith (s pre : String) : Bool :=
  pre.toList.isPrefixOf s.toList

/-- `String.prototype.endsWith`. -/
def strEndsWith (s suf : String) : Bool :=
  suf.toList.isSuffixOf s.toList

/-- `s.substring(n)` — drop the first `n` characters. -/
def strDrop (s : String) (n : Nat) : String :=
  String.mk (s.toList.drop n)

/-- Drop the last `n` characters. -/
def strDropRight (s : String) (n : Nat) : String :=
  String.mk (s.toList.take (s.toList.length - n))


/-- One virtual-filesystem node, after the `fileSystem` row shape of
`shared/schema.ts` (ids and timestamps are omitted: no claim mentions
them).  `type` is `"file"` or `"directory"`; `content` is `none` for
directories. -/
structure FSItem where
  path : String
  name : String
  type : String
  content : Option String
  permissions : String
  size : String
deriving Repr, DecidableEq

/-- The store is the ordered collection of nodes (insertion order is the
iteration order `listChildren` preserves, per spec section 4.2). -/
abbrev Store := List FSItem

/-- `MemStorage.getFileSystemItem` — `this.fileSystem.get(path)` on the
path-keyed map.  On the unique-keyed list model, `Map.get` is the first
(only) node with that path. -/
def getFileSystemItem (st : Store) (p : String) : Option FSItem :=
  st.find? (fun n => n.path = p)

/-- `MemStorage.fileSystemItemExists` — `this.fileSystem.has(path)`. -/
def fileSystemItemExists (st : Store) (p : String) : Bool :=
  (getFileSystemItem st p).isSome

/-- The derived parent of a path: everything before the last slash, with
`/` as fallback when that prefix is empty.  This is the computation
`p.substring(0, p.lastIndexOf('/')) || '/'` appearing both as `itemDir`
in `MemStorage.getDirectoryContents` and as `parentPath` in
`TerminalProcessor.makeDirectory`. -/
def parentPath (p : String) : String :=
  let pre := ((p.toList.reverse.dropWhile (fun c => c ≠ '/')).drop 1).reverse
  if pre = [] then "/" else String.mk pre

/-- The trailing-slash normalization of `MemStorage.getDirectoryContents`:
`path.endsWith('/') && path !== '/' ? path.slice(0, -1) : path`. -/
def normalizeDirPath (d : String) : String :=
  if d ≠ "/" ∧ strEndsWith d "/" then strDropRight d 1 else d

/-- `MemStorage.getDirectoryContents`: the nodes whose `itemDir` (derived
parent) equals the trailing-slash-normalized path, excluding the node at
the path itself, in the map's insertion-order iteration. -/
def getDirectoryContents (st : Store) (d : String) : List FSItem :=
  let nd := normalizeDirPath d
  st.filter (fun n => n.path ≠ nd ∧ parentPath n.path = nd)

/-- `MemStorage.createFileSystemItem` — `this.fileSystem.set(item.path,
fileItem)`: a JavaScript `Map.set` replaces an existing key's value in
place (keeping its insertion position) and otherwise appends.  The
declaration's `permissions`/`size`/`content` defaults never apply: every
interpreter call site passes all six fields. -/
def createFileSystemItem (st : Store) (item : FSItem) : Store :=
  if fileSystemItemExists st item.path then
    st.map (fun n => if n.path = item.path then item else n)
  else st ++ [item]

/-- `MemStorage.deleteFileSystemItem` — `this.fileSystem.delete(path)`:
true iff the key existed; no cascade to children. -/
def deleteFileSystemItem (st : Store) (p : String) : Bool × Store :=
  (fileSystemItemExists st p, st.filter (fun n => n.path ≠ p))

/-- `MemStorage.updateFileSystemItem` at the one update the interpreter
performs (`chmod` passes `{ permissions }`): merge into the existing
node, no-op when the path is absent. -/
def updateFileSystemItemPermissions (st : Store) (p perms : String) : Store :=
  st.map (fun n => if n.path = p then { n with permissions := perms } else n)

/-- `MemStorage.initializeFileSystem`: five directories (content `null`,
size `"4096"`) and three dotfiles with their literal contents and sizes,
inserted in source order. -/
def initialStore : Store :=
  [ ⟨"/", "/", "directory", none, "drwxr-xr-x", "4096"⟩,
    ⟨"/home", "home", "directory", none, "drwxr-xr-x", "4096"⟩,
    ⟨"/home/user", "user", "directory", none, "drwxr-xr-x", "4096"⟩,
    ⟨"/home/user/Documents", "Documents", "directory", none, "drwxr-xr-x", "4096"⟩,
    ⟨"/home/user/Projects", "Projects", "directory", none, "drwxr-xr-x", "4096"⟩,
    ⟨"/home/user/.bashrc", ".bashrc", "file", some "# .bashrc", "-rw-r--r--", "3526"⟩,
    ⟨"/home/user/.profile", ".profile", "file", some "# .profile", "-rw-r--r--", "807"⟩,
    ⟨"/home/user/.bash_logout", ".bash_logout", "file", some "# logout", "-rw-r--r--", "220"⟩ ]

/-- The mutable fields of `TerminalProcessor` plus the shared store. -/
structure PState where
  currentDirectory : String
  commandHistory : List String
  store : Store
deriving Repr, DecidableEq

/-- A fresh session over the bootstrap store
(`currentDirectory = "/home/user"`, empty history). -/
def bootstrapState : PState :=
  ⟨"/home/user", [], initialStore⟩

/-- A concrete session for exercising `find`: the bootstrap store
extended with a `docs` directory containing one file (the store that
`mkdir docs` followed by `touch docs/a.txt` produces). -/
def findCounterSt : PState :=
  ⟨"/home/user", [],
    initialStore ++
      [⟨"/home/user/docs", "docs", "directory", none, "drwxr-xr-x", "4096"⟩,
       ⟨"/home/user/docs/a.txt", "a.txt", "file", some "", "-rw-r--r--", "0"⟩]⟩

/-- A session whose working directory has no store node (`rm` can delete
the node the working directory denotes, so such states are reachable);
used to exercise handlers that resolve against the working directory. -/
def orphanCwdState : PState :=
  ⟨"/gone", [], initialStore⟩

/-- The number of bytes in a character's UTF-8 encoding. -/
def charUtf8Size (c : Char) : Nat :=
  if c.toNat < 128 then 1
  else if c.toNat < 2048 then 2
  else if c.toNat < 65536 then 3
  else 4

/-- The byte length of a string's UTF-8 encoding.  This renders the
claim's words "decimal byte length"; the source stores
`content.length.toString()`, which counts UTF-16 code units, so the two
differ on non-ASCII content (the embedding's `String.length` counts
characters and agrees with the source's count on all BMP text). -/
def utf8ByteLength (s : String) : Nat :=
  (s.toList.map charUtf8Size).sum

/-- `CommandResult` of `shared/schema.ts`. -/
structure CommandResult where
  output : String
  error : Option String
  currentDirectory : String
  success : Bool
deriving Repr, DecidableEq

/-- Nondeterministic inputs of the interpreter: clock renderings, the
pre-rendered texts of the purely cosmetic resource commands (spec
section 4.4 calls them cosmetic random generators), and the message of a
caught JavaScript `TypeError`. -/
structure Env where
  curlIso : String
  wgetDate : String
  wgetTime : String
  topText : String
  psText : String
  dfText : String
  freeText : String
  jsError : String
deriving Repr

/-- A concrete environment used for witnesses. -/
def defaultEnv : Env := ⟨"", "", "", "", "", "", "", ""⟩

/-- JavaScript `String.prototype.includes` (substring test). -/
def containsSub : List Char → List Char → Bool
  | [], needle => needle.isEmpty
  | h :: t, needle => needle.isPrefixOf (h :: t) || containsSub t needle

/-- Substring containment on strings. -/
def strContains (s sub : String) : Bool :=
  containsSub s.toList sub.toList

/-- JavaScript `String.prototype.replace` with a plain-string pattern:
replaces only the first occurrence. -/
def replaceFirstAux : List Char → List Char → List Char → List Char
  | [], _, _ => []
  | h :: t, pat, rep =>
    if pat.isPrefixOf (h :: t) then rep ++ (h :: t).drop pat.length
    else h :: replaceFirstAux t pat rep

/-- `s.replace(pat, rep)` for string patterns (first occurrence only). -/
def replaceFirst (s pat rep : String) : String :=
  String.mk (replaceFirstAux s.toList pat.toList rep.toList)

/-- `s.replace(/"/g, '')` — remove every double quote. -/
def stripQuotes (s : String) : String :=
  String.mk (s.toList.filter (fun c => c ≠ '"'))

/-- `arg.split('/').pop() || arg` — the final slash-separated segment,
falling back to the whole argument when that segment is empty. -/
def lastSegOr (s : String) : String :=
  let seg := (splitOnChar s '/').getLastD ""
  if seg = "" then s else seg

/-- `url.split('/').pop() || 'index.html'`. -/
def lastSegOrIndex (s : String) : String :=
  let seg := (splitOnChar s '/').getLastD ""
  if seg = "" then "index.html" else seg

/-- `s.padStart(n)` with spaces. -/
def padStartStr (n : Nat) (s : String) : String :=
  if n ≤ s.length then s
  else String.mk (List.replicate (n - s.length) ' ') ++ s

/-- JavaScript default array sort compares strings by code units; on the
sources' ASCII names this is code-point lexicographic order. -/
def charListLt : List Char → List Char → Bool
  | [], [] => false
  | [], _ :: _ => true
  | _ :: _, [] => false
  | a :: as, b :: bs => if a < b then true else if b < a then false else charListLt as bs

/-- Boolean lexicographic order on strings. -/
def strLt (a b : String) : Bool := charListLt a.toList b.toList

/-- Stable insertion used by `sortStrings`. -/
def insertSorted (x : String) : List String → List String
  | [] => [x]
  | h :: t => if strLt x h then x :: h :: t else h :: insertSorted x t

/-- Stable lexicographic sort (JavaScript `Array.prototype.sort`). -/
def sortStrings (l : List String) : List String :=
  l.foldl (fun acc x => insertSorted x acc) []

/-- Whitespace tokenization of a trimmed command line
(`trimmedCommand.split(/\s+/)`). -/
def tokenize (s : String) : List String :=
  (splitPred s Char.isWhitespace).filter (fun t => t ≠ "")

/-- `TerminalProcessor.resolvePath`, translated clause for clause. -/
def resolvePath (currentDirectory path : String) : String :=
  if strStartsWith path "/" then path
  else if path = "~" then "/home/user"
  else if strStartsWith path "~/" then "/home/user" ++ strDrop path 1
  else if currentDirectory = "/" then "/" ++ path
  else currentDirectory ++ "/" ++ path

/-- Result record shared by the non-mutating failure returns. -/
def failRes (st : PState) (out err : String) : CommandResult × PState :=
  ({ output := out, error := some err, currentDirectory := st.currentDirectory,
     success := false }, st)

/-- Result record shared by the plain success returns. -/
def okRes (st : PState) (out : String) : CommandResult × PState :=
  ({ output := out, error := none, currentDirectory := st.currentDirectory,
     success := true }, st)

/-- One `-l` output line of `listDirectory`. -/
def lsLongLine (item : FSItem) : String :=
  let typeChar := if item.type = "directory" then "d" else "-"
  typeChar ++ strDrop item.permissions 1 ++ " 1 user user " ++
    padStartStr 8 item.size ++ " Jan 15 14:30 " ++ item.name ++ "\n"

/-- `TerminalProcessor.listDirectory`. -/
def listDirectory (st : PState) (args : List String) : CommandResult × PState :=
  let showAll := args.contains "-a" || args.contains "-la" || args.contains "-al"
  let longFormat := args.contains "-l" || args.contains "-la" || args.contains "-al"
  let targetPath := (args.find? (fun a => !(strStartsWith a "-"))).getD st.currentDirectory
  let fullPath := resolvePath st.currentDirectory targetPath
  if fileSystemItemExists st.store fullPath = false then
    failRes st ("ls: cannot access '" ++ targetPath ++ "': No such file or directory")
      "No such file or directory"
  else
    let contents := getDirectoryContents st.store fullPath
    if longFormat then
      let base := "total " ++ toString (max (contents.length * 4) 12) ++ "\n"
      let base := if showAll then
          base ++ "drwxr-xr-x 3 user user 4096 Jan 15 14:30 .\n" ++
            (if fullPath ≠ "/" then "drwxr-xr-x 3 root root 4096 Jan 15 14:20 ..\n" else "")
        else base
      let out := contents.foldl
        (fun acc item =>
          if !showAll && strStartsWith item.name "." then acc else acc ++ lsLongLine item)
        base
      okRes st (jsTrim out)
    else
      let fileNames := sortStrings
        ((contents.filter (fun item => showAll || !(strStartsWith item.name "."))).map (fun i => i.name))
      okRes st (String.intercalate "  " fileNames)

/-- `TerminalProcessor.changeDirectory`. -/
def changeDirectory (st : PState) (path : String) : CommandResult × PState :=
  let fullPath := resolvePath st.currentDirectory path
  if fileSystemItemExists st.store fullPath = false then
    failRes st ("cd: no such file or directory: " ++ path) "No such file or directory"
  else if (getFileSystemItem st.store fullPath).map (fun i => i.type) ≠ some "directory" then
    failRes st ("cd: not a directory: " ++ path) "Not a directory"
  else
    let st' : PState := { st with currentDirectory := fullPath }
    ({ output := "", error := none, currentDirectory := st'.currentDirectory,
       success := true }, st')

/-- The per-path loop of `makeDirectory`: threads the store and collects
the failure messages in argument order. -/
def mkdirLoop (cwd : String) (st : Store) : List String → Store × List String
  | [] => (st, [])
  | arg :: rest =>
    let fullPath := resolvePath cwd arg
    if fileSystemItemExists st fullPath then
      let pr := mkdirLoop cwd st rest
      (pr.1, ("mkdir: cannot create directory '" ++ arg ++ "': File exists") :: pr.2)
    else
      let pp := parentPath fullPath
      if fileSystemItemExists st pp = false ∧ pp ≠ "/" then
        let pr := mkdirLoop cwd st rest
        (pr.1, ("mkdir: cannot create directory '" ++ arg ++ "': No such file or directory") :: pr.2)
      else
        let st1 := createFileSystemItem st
          ⟨fullPath, lastSegOr arg, "directory", none, "drwxr-xr-x", "4096"⟩
        mkdirLoop cwd st1 rest

/-- `TerminalProcessor.makeDirectory`. -/
def makeDirectory (st : PState) (args : List String) : CommandResult × PState :=
  if args = [] then
    failRes st "mkdir: missing operand" "Missing operand"
  else
    let pr := mkdirLoop st.currentDirectory st.store args
    let st' : PState := { st with store := pr.1 }
    ({ output := String.intercalate "\n" pr.2,
       error := pr.2.head?,
       currentDirectory := st'.currentDirectory,
       success := pr.2.isEmpty }, st')

/-- The per-path loop of `createFile` (`touch`). -/
def touchLoop (cwd : String) (st : Store) : List String → Store
  | [] => st
  | arg :: rest =>
    let fullPath := resolvePath cwd arg
    if fileSystemItemExists st fullPath then touchLoop cwd st rest
    else
      touchLoop cwd
        (createFileSystemItem st ⟨fullPath, lastSegOr arg, "file", some "", "-rw-r--r--", "0"⟩)
        rest

/-- `TerminalProcessor.createFile` (the `touch` handler). -/
def createFile (st : PState) (args : List String) : CommandResult × PState :=
  if args = [] then
    failRes st "touch: missing file operand" "Missing file operand"
  else
    let st' : PState := { st with store := touchLoop st.currentDirectory st.store args }
    ({ output := "", error := none, currentDirectory := st'.currentDirectory,
       success := true }, st')

/-- `TerminalProcessor.readFile` (the `cat` handler); the argument is
`args[0]`, absent when no argument was given (JavaScript `!path` is also
true for the empty string). -/
def readFile (st : PState) (pathOpt : Option String) : CommandResult × PState :=
  let path := pathOpt.getD ""
  if path = "" then
    failRes st "cat: missing file operand" "Missing file operand"
  else
    let fullPath := resolvePath st.currentDirectory path
    match getFileSystemItem st.store fullPath with
    | none =>
      failRes st ("cat: " ++ path ++ ": No such file or directory") "No such file or directory"
    | some item =>
      if item.type = "directory" then
        failRes st ("cat: " ++ path ++ ": Is a directory") "Is a directory"
      else
        okRes st (item.content.getD "")

/-- `TerminalProcessor.echo`. -/
def echo (st : PState) (args : List String) : CommandResult × PState :=
  if args = [] then okRes st ""
  else
    match args.findIdx? (fun a => a = ">") with
    | some redirectIndex =>
      if redirectIndex + 1 < args.length then
        let content := stripQuotes (String.intercalate " " (args.take redirectIndex))
        let filename := (args.get? (redirectIndex + 1)).getD ""
        let fullPath := resolvePath st.currentDirectory filename
        let st' : PState := { st with store := (createFileSystemItem st.store
          ⟨fullPath, lastSegOr filename, "file", some content, "-rw-r--r--",
            toString content.length⟩) }
        ({ output := "", error := none, currentDirectory := st'.currentDirectory,
           success := true }, st')
      else okRes st (stripQuotes (String.intercalate " " args))
    | none => okRes st (stripQuotes (String.intercalate " " args))

/-- The per-path loop of `removeFile` (`rm`). -/
def rmLoop (cwd : String) (st : Store) : List String → Store × List String
  | [] => (st, [])
  | arg :: rest =>
    let fullPath := resolvePath cwd arg
    if fileSystemItemExists st fullPath = false then
      let pr := rmLoop cwd st rest
      (pr.1, ("rm: cannot remove '" ++ arg ++ "': No such file or directory") :: pr.2)
    else
      let del := deleteFileSystemItem st fullPath
      if del.1 = false then
        let pr := rmLoop cwd del.2 rest
        (pr.1, ("rm: cannot remove '" ++ arg ++ "': Operation failed") :: pr.2)
      else rmLoop cwd del.2 rest

/-- `TerminalProcessor.removeFile` (the `rm` handler). -/
def removeFile (st : PState) (args : List String) : CommandResult × PState :=
  if args = [] then
    failRes st "rm: missing operand" "Missing operand"
  else
    let pr := rmLoop st.currentDirectory st.store args
    let st' : PState := { st with store := pr.1 }
    ({ output := String.intercalate "\n" pr.2,
       error := pr.2.head?,
       currentDirectory := st'.currentDirectory,
       success := pr.2.isEmpty }, st')

/-- `TerminalProcessor.copyFile` (the `cp` handler). -/
def copyFile (st : PState) (args : List String) : CommandResult × PState :=
  if args.length < 2 then
    failRes st "cp: missing destination file operand after source" "Missing destination"
  else
    let a0 := (args.get? 0).getD ""
    let a1 := (args.get? 1).getD ""
    let source := resolvePath st.currentDirectory a0
    let dest := resolvePath st.currentDirectory a1
    match getFileSystemItem st.store source with
    | none =>
      failRes st ("cp: cannot stat '" ++ a0 ++ "': No such file or directory") "File not found"
    | some sourceFile =>
      let st' : PState := { st with store := (createFileSystemItem st.store
        ⟨dest, lastSegOr a1, sourceFile.type, sourceFile.content,
          sourceFile.permissions, sourceFile.size⟩) }
      ({ output := "", error := none, currentDirectory := st'.currentDirectory,
         success := true }, st')

/-- `TerminalProcessor.moveFile` (the `mv` handler). -/
def moveFile (st : PState) (args : List String) : CommandResult × PState :=
  if args.length < 2 then
    failRes st "mv: missing destination file operand after source" "Missing destination"
  else
    let a0 := (args.get? 0).getD ""
    let a1 := (args.get? 1).getD ""
    let source := resolvePath st.currentDirectory a0
    let dest := resolvePath st.currentDirectory a1
    match getFileSystemItem st.store source with
    | none =>
      failRes st ("mv: cannot stat '" ++ a0 ++ "': No such file or directory") "File not found"
    | some sourceFile =>
      let store1 := createFileSystemItem st.store
        ⟨dest, lastSegOr a1, sourceFile.type, sourceFile.content,
          sourceFile.permissions, sourceFile.size⟩
      let st' : PState := { st with store := (deleteFileSystemItem store1 source).2 }
      ({ output := "", error := none, currentDirectory := st'.currentDirectory,
         success := true }, st')

/-- `TerminalProcessor.changePermissions` (the `chmod` handler). -/
def changePermissions (st : PState) (args : List String) : CommandResult × PState :=
  if args.length < 2 then
    failRes st "chmod: missing operand" "Missing operand"
  else
    let permissions := (args.get? 0).getD ""
    let filename := (args.get? 1).getD ""
    let filepath := resolvePath st.currentDirectory filename
    match getFileSystemItem st.store filepath with
    | none =>
      failRes st ("chmod: cannot access '" ++ filename ++ "': No such file or directory")
        "File not found"
    | some _ =>
      let st' : PState :=
        { st with store := updateFileSystemItemPermissions st.store filepath ("-" ++ permissions) }
      ({ output := "", error := none, currentDirectory := st'.currentDirectory,
         success := true }, st')

/-- The `-name` pattern of `findFiles`: `'*'` when the flag is absent,
and the token following the flag otherwise (absent — a JavaScript
`undefined` — when `-name` is the last token). -/
def findSearchName (args : List String) : Option String :=
  if args.contains "-name" then args.get? ((args.findIdx? (fun a => a = "-name")).getD 0 + 1)
  else some "*"

/-- `TerminalProcessor.findFiles` (the `find` handler).  The search path
is the raw first argument (or the current directory) — the source does
not call `resolvePath` here.  When the `-name` pattern is `undefined`
and the listing is non-empty, the JavaScript filter callback dereferences
`undefined` and throws; the thrown message is the `Env`'s runtime error
text. -/
def findFiles (env : Env) (st : PState) (args : List String) :
    Except String (CommandResult × PState) :=
  let searchPath := args.headD st.currentDirectory
  let contents := getDirectoryContents st.store searchPath
  match findSearchName args with
  | some searchName =>
    let results := contents.filter
      (fun item => searchName = "*" || strContains item.name (replaceFirst searchName "*" ""))
    .ok (okRes st (String.intercalate "\n" (results.map (fun i => i.path))))
  | none =>
    if contents = [] then .ok (okRes st "")
    else .error env.jsError

/-- `TerminalProcessor.grepCommand`. -/
def grepCommand (st : PState) (args : List String) : CommandResult × PState :=
  if args.length < 2 then
    failRes st "grep: missing pattern or file" "Missing arguments"
  else
    let pattern := (args.get? 0).getD ""
    let filename := (args.get? 1).getD ""
    match getFileSystemItem st.store (resolvePath st.currentDirectory filename) with
    | none =>
      failRes st ("grep: " ++ filename ++ ": No such file or directory") "File not found"
    | some file =>
      if file.type = "directory" then
        failRes st ("grep: " ++ filename ++ ": Is a directory") "Is a directory"
      else
        let lines := splitOnChar (file.content.getD "") '\n'
        okRes st (String.intercalate "\n" (lines.filter (fun l => strContains l pattern)))

/-- `TerminalProcessor.showHelp` (text reproduced verbatim). -/
def showHelp (st : PState) : CommandResult × PState :=
  okRes st ("Available Commands:\n\nFile System:\nls          - List directory contents\npwd         - Print working directory  \ncd          - Change directory\nmkdir       - Create directory\ntouch       - Create file\ncat         - Display file contents\necho        - Display text\nrm          - Remove files\ncp          - Copy files/directories\nmv          - Move/rename files\nchmod       - Change file permissions\nfind        - Find files and directories\ngrep        - Search text in files\n\nNetwork & Downloads:\ncurl        - Transfer data from/to servers\nwget        - Download files from web\nssh         - Secure shell remote access\nscp         - Secure copy over SSH\nrsync       - Sync files/directories\n\nDevelopment:\ngit         - Git version control\npython      - Python interpreter\nnode        - Node.js runtime\njava        - Java runtime\njavac       - Java compiler\ngcc/g++     - C/C++ compiler\nmake        - Build automation\nnpm         - Node package manager\npip         - Python package manager\n\nSystem Monitoring:\ntop/htop    - System resource monitor\nps          - Show running processes\ndf          - Show disk usage\nfree        - Show memory usage\nuname       - System information\nwhoami      - Current user\n\nText Editors:\nnano/vim    - Text editors\n\nArchive Tools:\ntar         - Archive files\nzip/unzip   - Compress/extract files\n\nUtilities:\nclear       - Clear terminal\nhelp        - Show this help\n\nCommand options:\nls -l       - Long format listing\nls -a       - Show hidden files\nls -la      - Long format with hidden files\necho \"text\" > file - Redirect output to file")

/-- `TerminalProcessor.executeCurl`; the response timestamp is the
`Env`'s clock rendering. -/
def executeCurl (env : Env) (st : PState) (args : List String) : CommandResult × PState :=
  if args = [] then failRes st "curl: missing URL" "Missing URL"
  else
    let url := args.headD ""
    if !(strStartsWith url "http") then
      failRes st ("curl: (1) Protocol \"" ++ ((splitOnChar url ':').headD "") ++
        "\" not supported or disabled in libcurl") "Invalid URL protocol"
    else
      okRes st ("HTTP/1.1 200 OK\nContent-Type: application/json\nContent-Length: 85\n\n\x7b\n  \"message\": \"Success\",\n  \"url\": \"" ++
        url ++ "\",\n  \"method\": \"GET\",\n  \"timestamp\": \"" ++ env.curlIso ++ "\"\n\x7d")

/-- `TerminalProcessor.executeWget`; the date and time renderings come
from the `Env`.  `url.split('/')[2]` is `undefined` — rendered as the
text `undefined` by the template literal — when the URL has fewer than
three slash-separated parts. -/
def executeWget (env : Env) (st : PState) (args : List String) : CommandResult × PState :=
  if args = [] then failRes st "wget: missing URL" "Missing URL"
  else
    let url := args.headD ""
    let filename := lastSegOrIndex url
    let host := ((splitOnChar url '/').get? 2).getD "undefined"
    let out := "--" ++ env.wgetDate ++ " " ++ env.wgetTime ++ "--  " ++ url ++
      "\nResolving " ++ host ++ "... 192.168.1.1\nConnecting to " ++ host ++
      "|192.168.1.1|:80... connected.\nHTTP request sent, awaiting response... 200 OK\nLength: 2048 (2.0K) [text/html]\nSaving to: '" ++
      filename ++ "'\n\n" ++ filename ++
      "          100%[===================>]   2.00K  --.-KB/s    in 0s      \n\n" ++
      env.wgetDate ++ " " ++ env.wgetTime ++ " (10.2 MB/s) - '" ++ filename ++
      "' saved [2048/2048]"
    let st' : PState := { st with store := (createFileSystemItem st.store
      ⟨resolvePath st.currentDirectory filename, filename, "file",
        some ("<!DOCTYPE html>\n<html>\n<head><title>Downloaded content</title></head>\n<body><h1>Sample content from " ++
          url ++ "</h1></body>\n</html>"), "-rw-r--r--", "2048"⟩) }
    ({ output := out, error := none, currentDirectory := st'.currentDirectory,
       success := true }, st')

/-- `TerminalProcessor.executeGit`. -/
def executeGit (st : PState) (args : List String) : CommandResult × PState :=
  if args = [] then
    okRes st "usage: git [--version] [--help] [-C <path>] [-c <name>=<value>]\n           [--exec-path[=<path>]] [--html-path] [--man-path] [--info-path]\n           [-p | --paginate | -P | --no-pager] [--no-replace-objects] [--bare]\n           [--git-dir=<path>] [--work-tree=<path>] [--namespace=<name>]\n           <command> [<args>]"
  else
    let subcommand := args.headD ""
    let subargs := args.drop 1
    if subcommand = "clone" then
      if subargs = [] then
        failRes st "fatal: You must specify a repository to clone." "Missing repository URL"
      else
        let repoUrl := subargs.headD ""
        let popped := replaceFirst ((splitOnChar repoUrl '/').getLastD "") ".git" ""
        let repoName := if popped = "" then "repository" else popped
        let repoPath := resolvePath st.currentDirectory repoName
        let store1 := createFileSystemItem st.store
          ⟨repoPath, repoName, "directory", none, "drwxr-xr-x", "4096"⟩
        let readme := "# " ++ repoName ++ "\n\nCloned from " ++ repoUrl
        let gitignore := "node_modules/\n*.log\n.env"
        let pkg := "\x7b\n  \"name\": \"" ++ repoName ++
          "\",\n  \"version\": \"1.0.0\",\n  \"description\": \"Cloned repository\"\n\x7d"
        let store2 := createFileSystemItem store1
          ⟨repoPath ++ "/README.md", "README.md", "file", some readme, "-rw-r--r--",
            toString readme.length⟩
        let store3 := createFileSystemItem store2
          ⟨repoPath ++ "/.gitignore", ".gitignore", "file", some gitignore, "-rw-r--r--",
            toString gitignore.length⟩
        let store4 := createFileSystemItem store3
          ⟨repoPath ++ "/package.json", "package.json", "file", some pkg, "-rw-r--r--",
            toString pkg.length⟩
        let st' : PState := { st with store := store4 }
        ({ output := "Cloning into '" ++ repoName ++
            "'...\nremote: Enumerating objects: 156, done.\nremote: Counting objects: 100% (156/156), done.\nremote: Compressing objects: 100% (98/98), done.\nremote: Total 156 (delta 45), reused 132 (delta 34), pack-reused 0\nReceiving objects: 100% (156/156), 45.67 KiB | 1.52 MiB/s, done.\nResolving deltas: 100% (45/45), done.",
           error := none, currentDirectory := st'.currentDirectory, success := true }, st')
    else if subcommand = "status" then
      okRes st "On branch main\nYour branch is up to date with 'origin/main'.\n\nnothing to commit, working tree clean"
    else if subcommand = "init" then
      okRes st ("Initialized empty Git repository in " ++ st.currentDirectory ++ "/.git/")
    else if subcommand = "add" then okRes st ""
    else if subcommand = "commit" then
      okRes st "[main 1a2b3c4] Sample commit\n 1 file changed, 1 insertion(+)"
    else if subcommand = "push" then okRes st "Everything up-to-date"
    else if subcommand = "pull" then okRes st "Already up to date."
    else
      failRes st ("git: '" ++ subcommand ++ "' is not a git command. See 'git --help'.")
        "Unknown git command"

/-- `TerminalProcessor.executePython`. -/
def executePython (st : PState) (args : List String) : CommandResult × PState :=
  if args = [] then
    okRes st "Python 3.11.0 (main, Oct 24 2022, 18:26:48) [GCC 9.4.0] on linux\nType \"help\", \"copyright\", \"credits\" or \"license\" for more information.\n>>> exit()"
  else
    let filename := args.headD ""
    match getFileSystemItem st.store (resolvePath st.currentDirectory filename) with
    | none =>
      failRes st ("python: can't open file '" ++ filename ++
        "': [Errno 2] No such file or directory") "File not found"
    | some file =>
      if file.type ≠ "file" ∨ !(strEndsWith filename ".py") then
        failRes st ("python: can't open file '" ++ filename ++ "': [Errno 21] Is a directory")
          "Invalid file"
      else
        okRes st ("Running Python script: " ++ filename ++
          "\nHello from Python!\nScript execution completed successfully.")

/-- `TerminalProcessor.executeNode`. -/
def executeNode (st : PState) (args : List String) : CommandResult × PState :=
  if args = [] then
    okRes st "Welcome to Node.js v18.17.0.\nType \".help\" for more information.\n> .exit"
  else
    let filename := args.headD ""
    match getFileSystemItem st.store (resolvePath st.currentDirectory filename) with
    | none => failRes st ("node: can't open file '" ++ filename ++ "'") "File not found"
    | some _ =>
      okRes st ("Running Node.js script: " ++ filename ++
        "\nHello from Node.js!\nScript execution completed successfully.")

/-- `TerminalProcessor.executeJava`. -/
def executeJava (st : PState) (args : List String) : CommandResult × PState :=
  if args = [] then
    okRes st "Usage: java [options] <mainclass> [args...]\n           (to execute a class)\n   or  java [options] -jar <jarfile> [args...]\n           (to execute a jar file)"
  else
    let className := args.headD ""
    okRes st ("Running Java class: " ++ className ++
      "\nHello from Java!\nProgram execution completed successfully.")

/-- `TerminalProcessor.executeJavac`. -/
def executeJavac (st : PState) (args : List String) : CommandResult × PState :=
  if args = [] then okRes st "Usage: javac <options> <source files>"
  else
    let filename := args.headD ""
    let file := getFileSystemItem st.store (resolvePath st.currentDirectory filename)
    if file = none ∨ !(strEndsWith filename ".java") then
      failRes st ("javac: file not found: " ++ filename) "File not found"
    else
      let classFile := replaceFirst filename ".java" ".class"
      let st' : PState := { st with store := (createFileSystemItem st.store
        ⟨resolvePath st.currentDirectory classFile, classFile, "file",
          some "Compiled Java bytecode (binary)", "-rw-r--r--", "1024"⟩) }
      ({ output := "Compiled " ++ filename ++ " successfully.", error := none,
         currentDirectory := st'.currentDirectory, success := true }, st')

/-- `TerminalProcessor.executeGcc`.  When `-o` is the final token the
source reads `args[args.indexOf('-o') + 1]` — `undefined` — and, if the
source file exists, passes it to `resolvePath`, which throws; the thrown
message is the `Env`'s runtime error text. -/
def executeGcc (compiler : String) (env : Env) (st : PState) (args : List String) :
    Except String (CommandResult × PState) :=
  if args = [] then
    .ok (failRes st (compiler ++ ": fatal error: no input files\ncompilation terminated.")
      "No input files")
  else
    let sourceFile := args.headD ""
    let outputFileOpt : Option String :=
      if args.contains "-o" then args.get? ((args.findIdx? (fun a => a = "-o")).getD 0 + 1)
      else some "a.out"
    match getFileSystemItem st.store (resolvePath st.currentDirectory sourceFile) with
    | none =>
      .ok (failRes st (compiler ++ ": error: " ++ sourceFile ++ ": No such file or directory")
        "File not found")
    | some _ =>
      match outputFileOpt with
      | none => .error env.jsError
      | some outputFile =>
        let st' : PState := { st with store := (createFileSystemItem st.store
          ⟨resolvePath st.currentDirectory outputFile, lastSegOr outputFile, "file",
            some "Compiled executable (binary)", "-rwxr-xr-x", "8192"⟩) }
        .ok ({ output := "Compiled " ++ sourceFile ++ " to " ++ outputFile ++ " successfully.",
               error := none, currentDirectory := st'.currentDirectory, success := true }, st')

/-- `TerminalProcessor.executeMake`. -/
def executeMake (st : PState) : CommandResult × PState :=
  okRes st ("make: Entering directory '" ++ st.currentDirectory ++
    "'\ngcc -o main main.c\nmake: Leaving directory '" ++ st.currentDirectory ++ "'")

/-- `TerminalProcessor.executeNpm`. -/
def executeNpm (st : PState) (args : List String) : CommandResult × PState :=
  if args = [] then
    okRes st "npm <command>\n\nUsage:\n\nnpm install        install all the dependencies\nnpm install <foo>  add the <foo> dependency\nnpm test           run this package's tests\nnpm run <foo>      run the script named <foo>\nnpm <command> -h   quick help on <command>"
  else
    let command := args.headD ""
    if command = "install" then
      okRes st "npm WARN saveError ENOENT: no such file or directory, open 'package.json'\nnpm notice created a lockfile as package-lock.json. You should commit this file.\nnpm WARN enoent ENOENT: no such file or directory, open 'package.json'\nnpm WARN terminal No description\nnpm WARN terminal No repository field.\nnpm WARN terminal No README data\nnpm WARN terminal No license field.\n\naudited 1 package in 0.5s\nfound 0 vulnerabilities"
    else if command = "init" then
      okRes st "This utility will walk you through creating a package.json file.\npackage.json created successfully!"
    else if command = "start" then
      failRes st "npm ERR! missing script: start" "Missing script"
    else failRes st ("Unknown command: " ++ command) "Unknown command"

/-- `TerminalProcessor.executePip`. -/
def executePip (st : PState) (args : List String) : CommandResult × PState :=
  if args = [] then
    okRes st "\nUsage:   \n  pip <command> [options]\n\nCommands:\n  install                     Install packages.\n  download                    Download packages.\n  uninstall                   Uninstall packages.\n  freeze                      Output installed packages in requirements format.\n  list                        List installed packages.\n  show                        Show information about installed packages."
  else
    let command := args.headD ""
    if command = "install" then
      let a1 := (args.get? 1).getD ""
      let packageName := if a1 = "" then "package" else a1
      okRes st ("Collecting " ++ packageName ++ "\n  Downloading " ++ packageName ++
        "-1.0.0-py3-none-any.whl (50 kB)\nInstalling collected packages: " ++ packageName ++
        "\nSuccessfully installed " ++ packageName ++ "-1.0.0")
    else if command = "list" then
      okRes st "Package    Version\n---------- -------\npip        23.0.1\nsetuptools 65.5.0\nwheel      0.38.4"
    else failRes st ("Unknown command: " ++ command) "Unknown command"

/-- `TerminalProcessor.showSystemResources` (`top`/`htop`).  The output
text interpolates clock and random resource values; it is supplied whole
by the `Env` (spec section 4.4: cosmetic random generator, no invariant
beyond shape).  The result shape — success, no error — is from the
source. -/
def showSystemResources (env : Env) (st : PState) : CommandResult × PState :=
  okRes st env.topText

/-- `TerminalProcessor.showProcesses` (`ps`); random-valued text from the
`Env`, result shape from the source. -/
def showProcesses (env : Env) (st : PState) : CommandResult × PState :=
  okRes st env.psText

/-- `TerminalProcessor.showDiskUsage` (`df`); random-valued text from the
`Env`, result shape from the source. -/
def showDiskUsage (env : Env) (st : PState) : CommandResult × PState :=
  okRes st env.dfText

/-- `TerminalProcessor.showMemoryUsage` (`free`); host-dependent text
from the `Env`, result shape from the source. -/
def showMemoryUsage (env : Env) (st : PState) : CommandResult × PState :=
  okRes st env.freeText

/-- `TerminalProcessor.showSystemInfo` (`uname`). -/
def showSystemInfo (st : PState) (args : List String) : CommandResult × PState :=
  if args.contains "-a" then
    okRes st "Linux webtermux 5.15.0-generic #72-Ubuntu SMP Fri Jan 20 10:24:01 UTC 2023 x86_64 x86_64 x86_64 GNU/Linux"
  else okRes st "Linux"

/-- `TerminalProcessor.openEditor` (`nano`/`vim`/`vi`). -/
def openEditor (editor : String) (st : PState) (args : List String) : CommandResult × PState :=
  let filename := (args.get? 0).getD "newfile.txt"
  okRes st ("Opening " ++ filename ++ " with " ++ editor ++ "...\n" ++ editor ++
    ": Editor simulation - file opened successfully.\nUse Ctrl+X to exit (nano) or :q to quit (vim).")

/-- `args[args.indexOf('-f') + 1] || 'archive.tar'` of `executeTar`:
index `-1 + 1 = 0` when `-f` is absent. -/
def tarArchiveName (args : List String) : String :=
  let j := match args.findIdx? (fun a => a = "-f") with
    | some k => k + 1
    | none => 0
  let a := (args.get? j).getD ""
  if a = "" then "archive.tar" else a

/-- `TerminalProcessor.executeTar`. -/
def executeTar (st : PState) (args : List String) : CommandResult × PState :=
  if args = [] then
    failRes st "tar: You must specify one of the '-Acdtrux', '--delete' or '--test-label' options"
      "Missing options"
  else
    let option := args.headD ""
    if strContains option "c" then okRes st ("Created archive: " ++ tarArchiveName args)
    else if strContains option "x" then okRes st ("Extracted archive: " ++ tarArchiveName args)
    else okRes st "tar: operation completed"

/-- `TerminalProcessor.executeZip` (`zip`/`unzip`). -/
def executeZip (command : String) (st : PState) (args : List String) : CommandResult × PState :=
  let zipName := (args.get? 0).getD "archive.zip"
  if command = "zip" then
    okRes st ("  adding: files (deflated 50%)\nArchive " ++ zipName ++ " created successfully.")
  else
    okRes st ("Archive:  " ++ zipName ++
      "\n  inflating: file1.txt\n  inflating: file2.txt\nExtraction completed.")

/-- `TerminalProcessor.executeSSH`. -/
def executeSSH (st : PState) (args : List String) : CommandResult × PState :=
  if args = [] then
    okRes st "usage: ssh [-46AaCfGgKkMNnqsTtVvXxYy] [-B bind_interface]\n           [-b bind_address] [-c cipher_spec] [-D [bind_address:]port]"
  else
    let host := args.headD ""
    failRes st ("ssh: connect to host " ++ host ++ " port 22: Connection refused")
      "Connection refused"

/-- `TerminalProcessor.executeSCP`. -/
def executeSCP (st : PState) (args : List String) : CommandResult × PState :=
  if args.length < 2 then
    okRes st "usage: scp [-346BCpqrTv] [-c cipher] [-F ssh_config] [-i identity_file]"
  else
    let dest := (args.get? 1).getD ""
    failRes st ("scp: connect to host " ++ ((splitOnChar dest ':').headD "") ++
      " port 22: Connection refused") "Connection refused"

/-- `TerminalProcessor.executeRsync`. -/
def executeRsync (st : PState) (args : List String) : CommandResult × PState :=
  if args.length < 2 then
    failRes st "rsync: no destination specified" "Missing destination"
  else
    let source := args.headD ""
    okRes st ("sending incremental file list\n" ++ source ++
      "\n\nsent 1,234 bytes  received 56 bytes  258.00 bytes/sec\ntotal size is 1,234  speedup is 0.96")

/-- The `catch` branch of `executeCommand`: a thrown fault becomes a
failed result (`${error}` and `error.message` are both modelled by the
carried message text). -/
def catchResult (st : PState) (e : String) : CommandResult × PState :=
  ({ output := "Error executing command: " ++ e, error := some e,
     currentDirectory := st.currentDirectory, success := false }, st)

/-- The `try`/`catch` of `executeCommand` around a fallible handler:
a thrown fault becomes the `catch` result. -/
def exceptDispatch (st : PState) : Except String (CommandResult × PState) →
    CommandResult × PState
  | .ok r => r
  | .error e => catchResult st e

/-- The `switch (cmd)` dispatch of `executeCommand`, one branch per
`case` label in source order (a `switch` on a string is an exact,
case-sensitive comparison chain). -/
def runCmd (env : Env) (st : PState) (cmd : String) (args : List String) :
    CommandResult × PState :=
  if cmd = "pwd" then okRes st st.currentDirectory
  else if cmd = "ls" then listDirectory st args
  else if cmd = "cd" then changeDirectory st ((args.get? 0).getD "/home/user")
  else if cmd = "mkdir" then makeDirectory st args
  else if cmd = "touch" then createFile st args
  else if cmd = "cat" then readFile st (args.get? 0)
  else if cmd = "echo" then echo st args
  else if cmd = "rm" then removeFile st args
  else if cmd = "clear" then okRes st "\x1b[2J\x1b[H"
  else if cmd = "help" then showHelp st
  else if cmd = "curl" then executeCurl env st args
  else if cmd = "wget" then executeWget env st args
  else if cmd = "git" then executeGit st args
  else if cmd = "python" ∨ cmd = "python3" then executePython st args
  else if cmd = "node" ∨ cmd = "nodejs" then executeNode st args
  else if cmd = "java" then executeJava st args
  else if cmd = "javac" then executeJavac st args
  else if cmd = "gcc" ∨ cmd = "g++" then exceptDispatch st (executeGcc cmd env st args)
  else if cmd = "make" then executeMake st
  else if cmd = "npm" then executeNpm st args
  else if cmd = "pip" ∨ cmd = "pip3" then executePip st args
  else if cmd = "top" ∨ cmd = "htop" then showSystemResources env st
  else if cmd = "ps" then showProcesses env st
  else if cmd = "df" then showDiskUsage env st
  else if cmd = "free" then showMemoryUsage env st
  else if cmd = "uname" then showSystemInfo st args
  else if cmd = "whoami" then okRes st "user"
  else if cmd = "nano" ∨ cmd = "vim" ∨ cmd = "vi" then openEditor cmd st args
  else if cmd = "find" then exceptDispatch st (findFiles env st args)
  else if cmd = "grep" then grepCommand st args
  else if cmd = "tar" then executeTar st args
  else if cmd = "zip" ∨ cmd = "unzip" then executeZip cmd st args
  else if cmd = "cp" then copyFile st args
  else if cmd = "mv" then moveFile st args
  else if cmd = "chmod" then changePermissions st args
  else if cmd = "ssh" then executeSSH st args
  else if cmd = "scp" then executeSCP st args
  else if cmd = "rsync" then executeRsync st args
  else
    failRes st ("Command not found: " ++ cmd) (cmd ++ ": command not found")

/-- `TerminalProcessor.executeCommand`: trim, record history, tokenize,
dispatch. -/
def executeCommand (env : Env) (st : PState) (command : String) :
    CommandResult × PState :=
  let trimmedCommand := jsTrim command
  if trimmedCommand = "" then okRes st ""
  else
    let st1 : PState := { st with commandHistory := st.commandHistory ++ [trimmedCommand] }
    let parts := tokenize trimmedCommand
    runCmd env st1 (parts.headD "") parts.tail

/-- Fold a list of command lines through `executeCommand`. -/
def runCommands (env : Env) (st : PState) : List String → PState
  | [] => st
  | c :: cs => runCommands env (executeCommand env st c).2 cs


/-! ## Store lemmas -/

theorem get_filter_ne (s : Store) (p q : String) (hpq : p ≠ q) :
    getFileSystemItem (s.filter (fun n => n.path ≠ q)) p = getFileSystemItem s p := by
  unfold getFileSystemItem
  induction s with
  | nil => rfl
  | cons a t ih =>
    by_cases hq : a.path = q
    · rw [List.filter_cons_of_neg (by simp [hq])]
      rw [List.find?_cons_of_neg _ (by simp [hq]; exact fun hc => hpq hc.symm)]
      exact ih
    · rw [List.filter_cons_of_pos (by simp [hq])]
      by_cases hap : a.path = p
      · rw [List.find?_cons_of_pos _ (by simp [hap]), List.find?_cons_of_pos _ (by simp [hap])]
      · rw [List.find?_cons_of_neg _ (by simp [hap]), List.find?_cons_of_neg _ (by simp [hap])]
        exact ih

theorem get_filter_self (s : Store) (q : String) :
    getFileSystemItem (s.filter (fun n => n.path ≠ q)) q = none := by
  unfold getFileSystemItem
  induction s with
  | nil => rfl
  | cons a t ih =>
    by_cases hq : a.path = q
    · rw [List.filter_cons_of_neg (by simp [hq])]
      exact ih
    · rw [List.filter_cons_of_pos (by simp [hq])]
      rw [List.find?_cons_of_neg _ (by simp [hq])]
      exact ih

theorem get_append_single (s : Store) (it : FSItem) (p : String) :
    getFileSystemItem (s ++ [it]) p =
      match getFileSystemItem s p with
      | some x => some x
      | none => if it.path = p then some it else none := by
  unfold getFileSystemItem
  induction s with
  | nil =>
    by_cases h : it.path = p <;> simp [List.find?, h]
  | cons a t ih =>
    by_cases hap : a.path = p
    · rw [List.cons_append, List.find?_cons_of_pos _ (by simp [hap]),
        List.find?_cons_of_pos _ (by simp [hap])]
    · rw [List.cons_append, List.find?_cons_of_neg _ (by simp [hap]),
        List.find?_cons_of_neg _ (by simp [hap])]
      exact ih

theorem get_map_replace_self (s : Store) (item : FSItem)
    (h : fileSystemItemExists s item.path = true) :
    getFileSystemItem (s.map (fun n => if n.path = item.path then item else n))
      item.path = some item := by
  unfold fileSystemItemExists at h
  unfold getFileSystemItem at h ⊢
  induction s with
  | nil => simp [List.find?] at h
  | cons a t ih =>
    by_cases hp : a.path = item.path
    · rw [List.map_cons, if_pos hp, List.find?_cons_of_pos _ (by simp)]
    · rw [List.find?_cons_of_neg _ (by simp [hp])] at h
      rw [List.map_cons, if_neg hp, List.find?_cons_of_neg _ (by simp [hp])]
      exact ih h

theorem get_map_replace_other (s : Store) (item : FSItem) (p : String)
    (hp : p ≠ item.path) :
    getFileSystemItem (s.map (fun n => if n.path = item.path then item else n)) p =
      getFileSystemItem s p := by
  unfold getFileSystemItem
  induction s with
  | nil => rfl
  | cons a t ih =>
    by_cases hq : a.path = item.path
    · rw [List.map_cons, if_pos hq,
        List.find?_cons_of_neg _ (by simp; exact fun hc => hp hc.symm),
        List.find?_cons_of_neg _ (by simp [hq]; exact fun hc => hp hc.symm)]
      exact ih
    · by_cases hap : a.path = p
      · rw [List.map_cons, if_neg hq, List.find?_cons_of_pos _ (by simp [hap]),
          List.find?_cons_of_pos _ (by simp [hap])]
      · rw [List.map_cons, if_neg hq, List.find?_cons_of_neg _ (by simp [hap]),
          List.find?_cons_of_neg _ (by simp [hap])]
        exact ih

/-- A created node is found at its own path. -/
theorem get_create_self (s : Store) (item : FSItem) :
    getFileSystemItem (createFileSystemItem s item) item.path = some item := by
  unfold createFileSystemItem
  split_ifs with h
  · exact get_map_replace_self s item h
  · have h0 : getFileSystemItem s item.path = none := by
      unfold fileSystemItemExists at h
      cases hx : getFileSystemItem s item.path with
      | none => rfl
      | some x => rw [hx] at h; simp at h
    rw [get_append_single, h0]
    simp

/-- Creating a node leaves every other path unchanged. -/
theorem get_create_other (s : Store) (item : FSItem) (p : String)
    (hp : p ≠ item.path) :
    getFileSystemItem (createFileSystemItem s item) p = getFileSystemItem s p := by
  unfold createFileSystemItem
  split_ifs with h
  · exact get_map_replace_other s item p hp
  · rw [get_append_single]
    cases hx : getFileSystemItem s p with
    | none => exact if_neg (fun hc => hp hc.symm)
    | some x => rfl

/-- A deleted path is no longer found. -/
theorem get_delete_self (s : Store) (q : String) :
    getFileSystemItem (deleteFileSystemItem s q).2 q = none :=
  get_filter_self s q

/-- Deleting a path leaves every other path unchanged. -/
theorem get_delete_other (s : Store) (p q : String) (h : p ≠ q) :
    getFileSystemItem (deleteFileSystemItem s q).2 p = getFileSystemItem s p :=
  get_filter_ne s p q h

/-- Auxiliary bound: `dropWhile` never lengthens a list. -/
theorem dropWhile_length_le {α : Type} (q : α → Bool) :
    ∀ l : List α, (l.dropWhile q).length ≤ l.length := by
  intro l
  induction l with
  | nil => exact Nat.le_refl _
  | cons a t ih =>
    by_cases hq : q a = true
    · rw [List.dropWhile_cons_of_pos hq]
      exact Nat.le_trans ih (Nat.le_succ _)
    · rw [List.dropWhile_cons_of_neg hq]

/-- The derived parent of a path other than `/` is a different string
(it is strictly shorter). -/
theorem parentPath_ne (p : String) (h : p ≠ "/") : parentPath p ≠ p := by
  unfold parentPath
  try dsimp only
  split_ifs with hemp
  · exact fun hc => h hc.symm
  · intro hc
    have hdata : ((p.toList.reverse.dropWhile (fun c => c ≠ '/')).drop 1).reverse = p.toList :=
      congrArg String.data hc
    have hd : (p.toList.reverse.dropWhile (fun c => c ≠ '/')) ≠ [] := by
      intro hnil
      exact hemp (by rw [hnil]; rfl)
    have h1 : 1 ≤ (p.toList.reverse.dropWhile (fun c => c ≠ '/')).length :=
      Nat.one_le_iff_ne_zero.mpr (fun h0 => hd (List.length_eq_zero.mp h0))
    have h2 : (p.toList.reverse.dropWhile (fun c => c ≠ '/')).length ≤ p.toList.length := by
      have hb := dropWhile_length_le (fun c => decide (c ≠ '/')) p.toList.reverse
      simpa using hb
    have h3 : (((p.toList.reverse.dropWhile (fun c => c ≠ '/')).drop 1).reverse).length =
        p.toList.length := by rw [hdata]
    rw [List.length_reverse, List.length_drop] at h3
    omega

/-! ## Result-shape invariant

Every handler call satisfies: the `error` field is present exactly when
`success` is false, the returned `currentDirectory` is the session's
working directory after the call, and the command history is untouched
(only `executeCommand` itself appends to it). -/

/-- The result-shape invariant for one handler call. -/
def ResultOk (st : PState) (rp : CommandResult × PState) : Prop :=
  (rp.1.error.isSome ↔ rp.1.success = false) ∧
  rp.1.currentDirectory = rp.2.currentDirectory ∧
  rp.2.commandHistory = st.commandHistory

theorem failRes_ok (st : PState) (out err : String) : ResultOk st (failRes st out err) := by
  simp [ResultOk, failRes]

theorem okRes_ok (st : PState) (out : String) : ResultOk st (okRes st out) := by
  simp [ResultOk, okRes]

theorem catchResult_ok (st : PState) (e : String) : ResultOk st (catchResult st e) := by
  simp [ResultOk, catchResult]

theorem resultOk_ite (st : PState) (c : Prop) [Decidable c] (a b : CommandResult × PState)
    (ha : ResultOk st a) (hb : ResultOk st b) : ResultOk st (if c then a else b) := by
  split <;> assumption

theorem listDirectory_ok (st : PState) (args : List String) :
    ResultOk st (listDirectory st args) := by
  unfold listDirectory
  try dsimp only
  split_ifs <;> first | apply failRes_ok | apply okRes_ok

theorem changeDirectory_ok (st : PState) (p : String) :
    ResultOk st (changeDirectory st p) := by
  unfold changeDirectory
  try dsimp only
  split_ifs <;> first | apply failRes_ok | simp [ResultOk]

theorem makeDirectory_ok (st : PState) (args : List String) :
    ResultOk st (makeDirectory st args) := by
  unfold makeDirectory
  try dsimp only
  split_ifs
  · apply failRes_ok
  · cases h : (mkdirLoop st.currentDirectory st.store args).2 <;>
      simp [ResultOk, h]

theorem createFile_ok (st : PState) (args : List String) :
    ResultOk st (createFile st args) := by
  unfold createFile
  try dsimp only
  split_ifs <;> first | apply failRes_ok | simp [ResultOk]

theorem readFile_ok (st : PState) (pathOpt : Option String) :
    ResultOk st (readFile st pathOpt) := by
  unfold readFile
  try dsimp only
  split_ifs
  · apply failRes_ok
  · split <;> [apply failRes_ok;
      split_ifs <;> first | apply failRes_ok | apply okRes_ok]

theorem echo_ok (st : PState) (args : List String) : ResultOk st (echo st args) := by
  unfold echo
  try dsimp only
  split_ifs
  · apply okRes_ok
  · split
    · split_ifs <;> first | apply okRes_ok | simp [ResultOk]
    · apply okRes_ok

theorem removeFile_ok (st : PState) (args : List String) :
    ResultOk st (removeFile st args) := by
  unfold removeFile
  try dsimp only
  split_ifs
  · apply failRes_ok
  · cases h : (rmLoop st.currentDirectory st.store args).2 <;>
      simp [ResultOk, h]

theorem copyFile_ok (st : PState) (args : List String) : ResultOk st (copyFile st args) := by
  unfold copyFile
  try dsimp only
  split_ifs
  · apply failRes_ok
  · split <;> first | apply failRes_ok | simp [ResultOk]

theorem moveFile_ok (st : PState) (args : List String) : ResultOk st (moveFile st args) := by
  unfold moveFile
  try dsimp only
  split_ifs
  · apply failRes_ok
  · split <;> first | apply failRes_ok | simp [ResultOk]

theorem changePermissions_ok (st : PState) (args : List String) :
    ResultOk st (changePermissions st args) := by
  unfold changePermissions
  try dsimp only
  split_ifs
  · apply failRes_ok
  · split <;> first | apply failRes_ok | simp [ResultOk]

theorem grepCommand_ok (st : PState) (args : List String) :
    ResultOk st (grepCommand st args) := by
  unfold grepCommand
  try dsimp only
  split_ifs
  · apply failRes_ok
  · split
    · apply failRes_ok
    · split_ifs <;> first | apply failRes_ok | apply okRes_ok

theorem findDispatch_ok (env : Env) (st : PState) (args : List String) :
    ResultOk st (exceptDispatch st (findFiles env st args)) := by
  unfold findFiles
  try dsimp only
  split
  · simp only [exceptDispatch]
    apply okRes_ok
  · split_ifs
    · simp only [exceptDispatch]
      apply okRes_ok
    · simp only [exceptDispatch]
      apply catchResult_ok

theorem showHelp_ok (st : PState) : ResultOk st (showHelp st) := okRes_ok ..

theorem executeCurl_ok (env : Env) (st : PState) (args : List String) :
    ResultOk st (executeCurl env st args) := by
  unfold executeCurl
  try dsimp only
  split_ifs <;> first | apply failRes_ok | apply okRes_ok

theorem executeWget_ok (env : Env) (st : PState) (args : List String) :
    ResultOk st (executeWget env st args) := by
  unfold executeWget
  try dsimp only
  split_ifs <;> first | apply failRes_ok | simp [ResultOk]

theorem executeGit_ok (st : PState) (args : List String) : ResultOk st (executeGit st args) := by
  unfold executeGit
  try dsimp only
  split_ifs <;> first | apply failRes_ok | apply okRes_ok | simp [ResultOk]

theorem executePython_ok (st : PState) (args : List String) :
    ResultOk st (executePython st args) := by
  unfold executePython
  try dsimp only
  split_ifs
  · apply okRes_ok
  · split
    · apply failRes_ok
    · split_ifs <;> first | apply failRes_ok | apply okRes_ok

theorem executeNode_ok (st : PState) (args : List String) :
    ResultOk st (executeNode st args) := by
  unfold executeNode
  try dsimp only
  split_ifs
  · apply okRes_ok
  · split <;> first | apply failRes_ok | apply okRes_ok

theorem executeJava_ok (st : PState) (args : List String) :
    ResultOk st (executeJava st args) := by
  unfold executeJava
  try dsimp only
  split_ifs <;> apply okRes_ok

theorem executeJavac_ok (st : PState) (args : List String) :
    ResultOk st (executeJavac st args) := by
  unfold executeJavac
  try dsimp only
  split_ifs <;> first | apply okRes_ok | apply failRes_ok | simp [ResultOk]

theorem gccDispatch_ok (compiler : String) (env : Env) (st : PState) (args : List String) :
    ResultOk st (exceptDispatch st (executeGcc compiler env st args)) := by
  unfold executeGcc
  try dsimp only
  split_ifs <;>
    first
      | (simp only [exceptDispatch]; apply failRes_ok)
      | (split <;>
          first
            | (simp only [exceptDispatch]; apply failRes_ok)
            | (split <;>
                first
                  | (simp only [exceptDispatch]; apply catchResult_ok)
                  | (simp [ResultOk, exceptDispatch]))
            | (simp [ResultOk, exceptDispatch]))

theorem executeMake_ok (st : PState) : ResultOk st (executeMake st) := okRes_ok ..

theorem executeNpm_ok (st : PState) (args : List String) :
    ResultOk st (executeNpm st args) := by
  unfold executeNpm
  try dsimp only
  split_ifs <;> first | apply okRes_ok | apply failRes_ok

theorem executePip_ok (st : PState) (args : List String) :
    ResultOk st (executePip st args) := by
  unfold executePip
  try dsimp only
  split_ifs <;> first | apply okRes_ok | apply failRes_ok

theorem showSystemInfo_ok (st : PState) (args : List String) :
    ResultOk st (showSystemInfo st args) := by
  unfold showSystemInfo
  try dsimp only
  split_ifs <;> apply okRes_ok

theorem openEditor_ok (editor : String) (st : PState) (args : List String) :
    ResultOk st (openEditor editor st args) := okRes_ok ..

theorem executeTar_ok (st : PState) (args : List String) :
    ResultOk st (executeTar st args) := by
  unfold executeTar
  try dsimp only
  split_ifs <;> first | apply failRes_ok | apply okRes_ok

theorem executeZip_ok (command : String) (st : PState) (args : List String) :
    ResultOk st (executeZip command st args) := by
  unfold executeZip
  try dsimp only
  split_ifs <;> apply okRes_ok

theorem executeSSH_ok (st : PState) (args : List String) :
    ResultOk st (executeSSH st args) := by
  unfold executeSSH
  try dsimp only
  split_ifs <;> first | apply okRes_ok | apply failRes_ok

theorem executeSCP_ok (st : PState) (args : List String) :
    ResultOk st (executeSCP st args) := by
  unfold executeSCP
  try dsimp only
  split_ifs <;> first | apply okRes_ok | apply failRes_ok

theorem executeRsync_ok (st : PState) (args : List String) :
    ResultOk st (executeRsync st args) := by
  unfold executeRsync
  try dsimp only
  split_ifs <;> first | apply failRes_ok | apply okRes_ok

/-- Every dispatch branch satisfies the result-shape invariant. -/
theorem runCmd_ok (env : Env) (st : PState) (cmd : String) (args : List String) :
    ResultOk st (runCmd env st cmd args) := by
  unfold runCmd
  refine resultOk_ite _ _ _ _ (okRes_ok _ _) ?_
  refine resultOk_ite _ _ _ _ (listDirectory_ok _ _) ?_
  refine resultOk_ite _ _ _ _ (changeDirectory_ok _ _) ?_
  refine resultOk_ite _ _ _ _ (makeDirectory_ok _ _) ?_
  refine resultOk_ite _ _ _ _ (createFile_ok _ _) ?_
  refine resultOk_ite _ _ _ _ (readFile_ok _ _) ?_
  refine resultOk_ite _ _ _ _ (echo_ok _ _) ?_
  refine resultOk_ite _ _ _ _ (removeFile_ok _ _) ?_
  refine resultOk_ite _ _ _ _ (okRes_ok _ _) ?_
  refine resultOk_ite _ _ _ _ (showHelp_ok _) ?_
  refine resultOk_ite _ _ _ _ (executeCurl_ok _ _ _) ?_
  refine resultOk_ite _ _ _ _ (executeWget_ok _ _ _) ?_
  refine resultOk_ite _ _ _ _ (executeGit_ok _ _) ?_
  refine resultOk_ite _ _ _ _ (executePython_ok _ _) ?_
  refine resultOk_ite _ _ _ _ (executeNode_ok _ _) ?_
  refine resultOk_ite _ _ _ _ (executeJava_ok _ _) ?_
  refine resultOk_ite _ _ _ _ (executeJavac_ok _ _) ?_
  refine resultOk_ite _ _ _ _ (gccDispatch_ok _ _ _ _) ?_
  refine resultOk_ite _ _ _ _ (executeMake_ok _) ?_
  refine resultOk_ite _ _ _ _ (executeNpm_ok _ _) ?_
  refine resultOk_ite _ _ _ _ (executePip_ok _ _) ?_
  refine resultOk_ite _ _ _ _ (okRes_ok _ _) ?_
  refine resultOk_ite _ _ _ _ (okRes_ok _ _) ?_
  refine resultOk_ite _ _ _ _ (okRes_ok _ _) ?_
  refine resultOk_ite _ _ _ _ (okRes_ok _ _) ?_
  refine resultOk_ite _ _ _ _ (showSystemInfo_ok _ _) ?_
  refine resultOk_ite _ _ _ _ (okRes_ok _ _) ?_
  refine resultOk_ite _ _ _ _ (openEditor_ok _ _ _) ?_
  refine resultOk_ite _ _ _ _ (findDispatch_ok _ _ _) ?_
  refine resultOk_ite _ _ _ _ (grepCommand_ok _ _) ?_
  refine resultOk_ite _ _ _ _ (executeTar_ok _ _) ?_
  refine resultOk_ite _ _ _ _ (executeZip_ok _ _ _) ?_
  refine resultOk_ite _ _ _ _ (copyFile_ok _ _) ?_
  refine resultOk_ite _ _ _ _ (moveFile_ok _ _) ?_
  refine resultOk_ite _ _ _ _ (changePermissions_ok _ _) ?_
  refine resultOk_ite _ _ _ _ (executeSSH_ok _ _) ?_
  refine resultOk_ite _ _ _ _ (executeSCP_ok _ _) ?_
  refine resultOk_ite _ _ _ _ (executeRsync_ok _ _) ?_
  exact failRes_ok _ _ _

/-- `executeCommand` records exactly the non-blank trimmed commands. -/
theorem executeCommand_history (env : Env) (st : PState) (c : String) :
    (executeCommand env st c).2.commandHistory =
      if jsTrim c = "" then st.commandHistory else st.commandHistory ++ [jsTrim c] := by
  unfold executeCommand
  try dsimp only
  split_ifs with h
  · simp [okRes]
  · exact (runCmd_ok env _ _ _).2.2


/-! ## Claim theorems -/

/-- C2: `resolvePath` is a pure function applying, in order: an argument
beginning with `/` is returned unchanged; `~` yields `/home/user`; an
argument beginning with `~/` yields `/home/user` plus the remainder
after the `~`; when the current directory is `/` the result is
`/ ++ raw`; otherwise `cwd ++ "/" ++ raw` — with no `.`/`..` or
duplicate-slash normalization; including the three concrete examples
from the specification. -/
theorem claim_C2 (cwd raw : String) :
    (strStartsWith raw "/" = true → resolvePath cwd raw = raw) ∧
    (strStartsWith raw "/" = false → raw = "~" → resolvePath cwd raw = "/home/user") ∧
    (strStartsWith raw "/" = false → raw ≠ "~" → strStartsWith raw "~/" = true →
      resolvePath cwd raw = "/home/user" ++ strDrop raw 1) ∧
    (strStartsWith raw "/" = false → raw ≠ "~" → strStartsWith raw "~/" = false →
      cwd = "/" → resolvePath cwd raw = "/" ++ raw) ∧
    (strStartsWith raw "/" = false → raw ≠ "~" → strStartsWith raw "~/" = false →
      cwd ≠ "/" → resolvePath cwd raw = cwd ++ "/" ++ raw) ∧
    resolvePath "/home/user" "notes.txt" = "/home/user/notes.txt" ∧
    resolvePath "/home/user" "/etc/hosts" = "/etc/hosts" ∧
    resolvePath "/home/user" "~" = "/home/user" := by
  refine ⟨fun h1 => ?_, fun h1 h2 => ?_, fun h1 h2 h3 => ?_, fun h1 h2 h3 h4 => ?_,
    fun h1 h2 h3 h4 => ?_, by decide, by decide, by decide⟩ <;>
    (simp [resolvePath, h1, *]) <;> try decide

/-- C2 witness: the relative-path rule applied at a concrete input. -/
theorem claim_C2_witness :
    resolvePath "/home/user" "notes.txt" = "/home/user" ++ "/" ++ "notes.txt" :=
  (claim_C2 "/home/user" "notes.txt").2.2.2.2.1 (by decide) (by decide) (by decide) (by decide)

/-- C6: every `CommandResult` has the `error` field present exactly when
`success` is false, and its `currentDirectory` equals the session's
working directory after the call, on every path of the dispatcher
(blank input, every handler, unknown command, caught handler fault). -/
theorem claim_C6 (env : Env) (st : PState) (command : String) :
    ((executeCommand env st command).1.error.isSome ↔
      (executeCommand env st command).1.success = false) ∧
    (executeCommand env st command).1.currentDirectory =
      (executeCommand env st command).2.currentDirectory := by
  unfold executeCommand
  try dsimp only
  split_ifs with h
  · simp [okRes]
  · exact ⟨(runCmd_ok env _ _ _).1, (runCmd_ok env _ _ _).2.1⟩

/-- C7: a blank (all-whitespace) input returns success with empty output
and records nothing; a sequence of invocations with non-blank trimmed
text appends exactly the trimmed commands, in invocation order, so the
history length equals the number of such invocations. -/
theorem claim_C7 (env : Env) (st : PState) :
    (∀ c, jsTrim c = "" →
      (executeCommand env st c).1.success = true ∧
      (executeCommand env st c).1.output = "" ∧
      (executeCommand env st c).2.commandHistory = st.commandHistory) ∧
    (∀ cmds : List String, (∀ c ∈ cmds, jsTrim c ≠ "") →
      (runCommands env st cmds).commandHistory = st.commandHistory ++ cmds.map jsTrim ∧
      (runCommands env st cmds).commandHistory.length =
        st.commandHistory.length + cmds.length) := by
  constructor
  · intro c hc
    simp [executeCommand, hc, okRes]
  · intro cmds hall
    have heq : (runCommands env st cmds).commandHistory =
        st.commandHistory ++ cmds.map jsTrim := by
      induction cmds generalizing st with
      | nil => simp [runCommands]
      | cons c cs ih =>
        unfold runCommands
        rw [ih ((executeCommand env st c).2) (fun x hx => hall x (List.mem_cons_of_mem c hx))]
        rw [executeCommand_history, if_neg (hall c (List.mem_cons_self c cs))]
        simp
    exact ⟨heq, by rw [heq]; simp⟩

/-- C7 witness: two non-blank commands leave exactly those two history
entries. -/
theorem claim_C7_witness :
    (runCommands defaultEnv bootstrapState ["pwd", "ls"]).commandHistory = ["pwd", "ls"] := by
  have h := (claim_C7 defaultEnv bootstrapState).2 ["pwd", "ls"] (by decide)
  exact h.1.trans (by decide)

/-- C3: `cd` resolves its argument (defaulting to `/home/user`), fails
with "No such file or directory" when the resolved path has no node,
fails with "Not a directory" when the node is not a directory — leaving
the working directory unchanged in both cases — and otherwise sets the
resolved path as the working directory with empty output. -/
theorem claim_C3 (st : PState) (p : String) :
    (fileSystemItemExists st.store (resolvePath st.currentDirectory p) = false →
      (changeDirectory st p).1.success = false ∧
      (changeDirectory st p).1.error = some "No such file or directory" ∧
      (changeDirectory st p).2.currentDirectory = st.currentDirectory) ∧
    (∀ item, getFileSystemItem st.store (resolvePath st.currentDirectory p) = some item →
      item.type ≠ "directory" →
      (changeDirectory st p).1.success = false ∧
      (changeDirectory st p).1.error = some "Not a directory" ∧
      (changeDirectory st p).2.currentDirectory = st.currentDirectory) ∧
    (∀ item, getFileSystemItem st.store (resolvePath st.currentDirectory p) = some item →
      item.type = "directory" →
      (changeDirectory st p).1.success = true ∧
      (changeDirectory st p).1.output = "" ∧
      (changeDirectory st p).1.error = none ∧
      (changeDirectory st p).2.currentDirectory = resolvePath st.currentDirectory p) ∧
    (∀ env, executeCommand env st "cd" =
      changeDirectory { st with commandHistory := st.commandHistory ++ ["cd"] } "/home/user") := by
  refine ⟨?_, ?_, ?_, fun env => rfl⟩
  · intro h
    simp [changeDirectory, h, failRes]
  · intro item hit htype
    have hex : fileSystemItemExists st.store (resolvePath st.currentDirectory p) = true := by
      simp [fileSystemItemExists, hit]
    simp [changeDirectory, hex, hit, htype, failRes]
  · intro item hit htype
    have hex : fileSystemItemExists st.store (resolvePath st.currentDirectory p) = true := by
      simp [fileSystemItemExists, hit]
    simp [changeDirectory, hex, hit, htype]

/-- C3 witness: `cd` into the bootstrap `Documents` directory succeeds
and sets the working directory; `cd` onto the `.bashrc` file fails with
"Not a directory" and leaves the working directory unchanged. -/
theorem claim_C3_witness :
    (changeDirectory bootstrapState "Documents").2.currentDirectory = "/home/user/Documents" ∧
    (changeDirectory bootstrapState ".bashrc").1.error = some "Not a directory" ∧
    (changeDirectory bootstrapState ".bashrc").2.currentDirectory = "/home/user" := by
  refine ⟨((claim_C3 bootstrapState "Documents").2.2.1
      ⟨"/home/user/Documents", "Documents", "directory", none, "drwxr-xr-x", "4096"⟩
      (by decide) (by decide)).2.2.2.trans (by decide), ?_, ?_⟩
  · exact ((claim_C3 bootstrapState ".bashrc").2.1
      ⟨"/home/user/.bashrc", ".bashrc", "file", some "# .bashrc", "-rw-r--r--", "3526"⟩
      (by decide) (by decide)).2.1
  · exact ((claim_C3 bootstrapState ".bashrc").2.1
      ⟨"/home/user/.bashrc", ".bashrc", "file", some "# .bashrc", "-rw-r--r--", "3526"⟩
      (by decide) (by decide)).2.2


/-- `String.intercalate` on the empty list. -/
theorem intercalate_nil (sep : String) : String.intercalate sep [] = "" := rfl

/-- `String.intercalate` on a one-element list. -/
theorem intercalate_single (sep m : String) : String.intercalate sep [m] = m := by
  simp [String.intercalate, String.intercalate.go]

/-- The `mkdir` loop only ever appends directory nodes for its
arguments: the resulting store is the initial store followed by nodes of
type `directory`, permissions `drwxr-xr-x`, size `4096`, at resolved
argument paths (so no failure rolls back an earlier creation and
nothing is removed or altered). -/
theorem mkdirLoop_append (cwd : String) :
    ∀ (args : List String) (s : Store), ∃ created : List FSItem,
      (mkdirLoop cwd s args).1 = s ++ created ∧
      ∀ it ∈ created, ∃ a, a ∈ args ∧
        it = ⟨resolvePath cwd a, lastSegOr a, "directory", none, "drwxr-xr-x", "4096"⟩ := by
  intro args
  induction args with
  | nil =>
    intro s
    exact ⟨[], by simp [mkdirLoop], by simp⟩
  | cons a rest ih =>
    intro s
    unfold mkdirLoop
    try dsimp only
    split_ifs with h1 h2
    · obtain ⟨cr, hcr, hall⟩ := ih s
      refine ⟨cr, hcr, fun it hit => ?_⟩
      obtain ⟨x, hx, he⟩ := hall it hit
      exact ⟨x, List.mem_cons_of_mem a hx, he⟩
    · obtain ⟨cr, hcr, hall⟩ := ih s
      refine ⟨cr, hcr, fun it hit => ?_⟩
      obtain ⟨x, hx, he⟩ := hall it hit
      exact ⟨x, List.mem_cons_of_mem a hx, he⟩
    · have hcr0 : createFileSystemItem s
          ⟨resolvePath cwd a, lastSegOr a, "directory", none, "drwxr-xr-x", "4096"⟩ =
          s ++ [⟨resolvePath cwd a, lastSegOr a, "directory", none, "drwxr-xr-x", "4096"⟩] := by
        unfold createFileSystemItem
        exact if_neg h1
      obtain ⟨cr, hcr, hall⟩ := ih
        (s ++ [⟨resolvePath cwd a, lastSegOr a, "directory", none, "drwxr-xr-x", "4096"⟩])
      refine ⟨⟨resolvePath cwd a, lastSegOr a, "directory", none,
        "drwxr-xr-x", "4096"⟩ :: cr, ?_, ?_⟩
      · rw [hcr0, hcr, List.append_assoc]
        rfl
      · intro it hit
        rcases List.mem_cons.mp hit with hit | hit
        · exact ⟨a, List.mem_cons_self a rest, hit⟩
        · obtain ⟨x, hx, he⟩ := hall it hit
          exact ⟨x, List.mem_cons_of_mem a hx, he⟩

/-- Every message the `mkdir` loop collects is the "File exists" or the
"No such file or directory" message of one of the arguments. -/
theorem mkdirLoop_msgs (cwd : String) :
    ∀ (args : List String) (s : Store) (m : String),
      m ∈ (mkdirLoop cwd s args).2 →
      ∃ a, a ∈ args ∧
        (m = "mkdir: cannot create directory '" ++ a ++ "': File exists" ∨
         m = "mkdir: cannot create directory '" ++ a ++ "': No such file or directory") := by
  intro args
  induction args with
  | nil =>
    intro s m hm
    simp [mkdirLoop] at hm
  | cons a rest ih =>
    intro s m hm
    unfold mkdirLoop at hm
    try dsimp only at hm
    split_ifs at hm with h1 h2
    · rcases List.mem_cons.mp hm with hm | hm
      · exact ⟨a, List.mem_cons_self a rest, Or.inl hm⟩
      · obtain ⟨x, hx, ho⟩ := ih s m hm
        exact ⟨x, List.mem_cons_of_mem a hx, ho⟩
    · rcases List.mem_cons.mp hm with hm | hm
      · exact ⟨a, List.mem_cons_self a rest, Or.inr hm⟩
      · obtain ⟨x, hx, ho⟩ := ih s m hm
        exact ⟨x, List.mem_cons_of_mem a hx, ho⟩
    · obtain ⟨x, hx, ho⟩ := ih _ m hm
      exact ⟨x, List.mem_cons_of_mem a hx, ho⟩

/-- The accumulator of `String.intercalate.go` only grows. -/
theorem intercalate_go_length (sep : String) :
    ∀ (xs : List String) (acc : String),
      acc.length ≤ (String.intercalate.go acc sep xs).length := by
  intro xs
  induction xs with
  | nil =>
    intro acc
    exact Nat.le_refl _
  | cons x xs ih =>
    intro acc
    have hgo : String.intercalate.go acc sep (x :: xs) =
        String.intercalate.go (acc ++ sep ++ x) sep xs := rfl
    rw [hgo]
    refine Nat.le_trans ?_ (ih (acc ++ sep ++ x))
    rw [String.length_append, String.length_append]
    omega

/-- An intercalation headed by a non-empty string is non-empty. -/
theorem intercalate_ne_of_head_pos (m : String) (ms : List String) (hm : 0 < m.length) :
    String.intercalate "\n" (m :: ms) ≠ "" := by
  intro hc
  have hgo : String.intercalate "\n" (m :: ms) = String.intercalate.go m "\n" ms := rfl
  have hlen := intercalate_go_length "\n" ms m
  rw [hgo] at hc
  rw [hc] at hlen
  have hz : ("" : String).length = 0 := rfl
  omega

/-- Both per-path `mkdir` messages are non-empty. -/
theorem mkdir_msg_pos (a t : String) :
    0 < ("mkdir: cannot create directory '" ++ a ++ t).length := by
  rw [String.length_append, String.length_append]
  have h1 : ("mkdir: cannot create directory '" : String).length = 32 := by decide
  omega

/-- C4: `mkdir` with no arguments is a "missing operand" failure; each
path is processed independently: an occupied path yields the
"File exists" message, an absent parent (other than `/`) yields the
"No such file or directory" message, and every other path receives a
directory node with permissions `drwxr-xr-x` and size `4096`; for every
argument list the aggregate result succeeds exactly when no per-path
failure message was produced (equivalently, when the output is empty),
the output concatenates the per-path messages, `error` carries the
first and is present exactly on failure, every collected message is one
of the two per-path messages of some argument, and the store only grows
by directory nodes (`drwxr-xr-x`, `4096`) at resolved argument paths —
no rollback ever removes or alters a node. -/
theorem claim_C4 (st : PState) :
    ((makeDirectory st []).1.success = false ∧
     (makeDirectory st []).1.output = "mkdir: missing operand" ∧
     (makeDirectory st []).1.error = some "Missing operand") ∧
    (∀ a, fileSystemItemExists st.store (resolvePath st.currentDirectory a) = true →
      (makeDirectory st [a]).1.success = false ∧
      (makeDirectory st [a]).1.output =
        "mkdir: cannot create directory '" ++ a ++ "': File exists" ∧
      (makeDirectory st [a]).1.error =
        some ("mkdir: cannot create directory '" ++ a ++ "': File exists") ∧
      (makeDirectory st [a]).2.store = st.store) ∧
    (∀ a, fileSystemItemExists st.store (resolvePath st.currentDirectory a) = false →
      fileSystemItemExists st.store (parentPath (resolvePath st.currentDirectory a)) = false →
      parentPath (resolvePath st.currentDirectory a) ≠ "/" →
      (makeDirectory st [a]).1.success = false ∧
      (makeDirectory st [a]).1.output =
        "mkdir: cannot create directory '" ++ a ++ "': No such file or directory" ∧
      (makeDirectory st [a]).1.error =
        some ("mkdir: cannot create directory '" ++ a ++ "': No such file or directory") ∧
      (makeDirectory st [a]).2.store = st.store) ∧
    (∀ a, fileSystemItemExists st.store (resolvePath st.currentDirectory a) = false →
      (fileSystemItemExists st.store (parentPath (resolvePath st.currentDirectory a)) = true ∨
        parentPath (resolvePath st.currentDirectory a) = "/") →
      (makeDirectory st [a]).1.success = true ∧
      (makeDirectory st [a]).1.output = "" ∧
      (makeDirectory st [a]).1.error = none ∧
      getFileSystemItem (makeDirectory st [a]).2.store (resolvePath st.currentDirectory a) =
        some ⟨resolvePath st.currentDirectory a, lastSegOr a, "directory", none,
          "drwxr-xr-x", "4096"⟩) ∧
    (∀ a b, fileSystemItemExists st.store (resolvePath st.currentDirectory a) = true →
      fileSystemItemExists st.store (resolvePath st.currentDirectory b) = false →
      (fileSystemItemExists st.store (parentPath (resolvePath st.currentDirectory b)) = true ∨
        parentPath (resolvePath st.currentDirectory b) = "/") →
      (makeDirectory st [a, b]).1.success = false ∧
      (makeDirectory st [a, b]).1.output =
        "mkdir: cannot create directory '" ++ a ++ "': File exists" ∧
      (makeDirectory st [a, b]).1.error =
        some ("mkdir: cannot create directory '" ++ a ++ "': File exists") ∧
      getFileSystemItem (makeDirectory st [a, b]).2.store (resolvePath st.currentDirectory b) =
        some ⟨resolvePath st.currentDirectory b, lastSegOr b, "directory", none,
          "drwxr-xr-x", "4096"⟩) ∧
    (∀ args : List String, args ≠ [] →
      (makeDirectory st args).1.output =
        String.intercalate "\n" (mkdirLoop st.currentDirectory st.store args).2 ∧
      (makeDirectory st args).1.error =
        (mkdirLoop st.currentDirectory st.store args).2.head? ∧
      ((makeDirectory st args).1.success = true ↔
        (mkdirLoop st.currentDirectory st.store args).2 = []) ∧
      ((makeDirectory st args).1.success = true ↔ (makeDirectory st args).1.output = "") ∧
      ((makeDirectory st args).1.error.isSome ↔ (makeDirectory st args).1.success = false)) ∧
    (∀ args : List String, ∃ created : List FSItem,
      (makeDirectory st args).2.store = st.store ++ created ∧
      ∀ it ∈ created, ∃ a, a ∈ args ∧
        it = ⟨resolvePath st.currentDirectory a, lastSegOr a, "directory", none,
          "drwxr-xr-x", "4096"⟩) ∧
    (∀ args : List String, ∀ m ∈ (mkdirLoop st.currentDirectory st.store args).2,
      ∃ a, a ∈ args ∧
        (m = "mkdir: cannot create directory '" ++ a ++ "': File exists" ∨
         m = "mkdir: cannot create directory '" ++ a ++ "': No such file or directory")) := by
  refine ⟨by simp [makeDirectory, failRes], ?_, ?_, ?_, ?_, ?_, ?_, ?_⟩
  · intro a h
    simp [makeDirectory, mkdirLoop, h, intercalate_single]
  · intro a h hpar hroot
    simp [makeDirectory, mkdirLoop, h, hpar, hroot, intercalate_single]
  · intro a h hok
    have hcond : ¬(fileSystemItemExists st.store
        (parentPath (resolvePath st.currentDirectory a)) = false ∧
        parentPath (resolvePath st.currentDirectory a) ≠ "/") := by
      rcases hok with hok | hok <;> simp [hok]
    simp [makeDirectory, mkdirLoop, h, hcond, intercalate_nil]
    exact get_create_self st.store _
  · intro a b ha hb hbok
    have hcond : ¬(fileSystemItemExists st.store
        (parentPath (resolvePath st.currentDirectory b)) = false ∧
        parentPath (resolvePath st.currentDirectory b) ≠ "/") := by
      rcases hbok with hok | hok <;> simp [hok]
    simp [makeDirectory, mkdirLoop, ha, hb, hcond, intercalate_single]
    exact get_create_self st.store _
  · intro args hargs
    refine ⟨by simp [makeDirectory, hargs], by simp [makeDirectory, hargs], ?_, ?_,
      (makeDirectory_ok st args).1⟩
    · cases hmsgs : (mkdirLoop st.currentDirectory st.store args).2 with
      | nil => simp [makeDirectory, hargs, hmsgs]
      | cons m ms => simp [makeDirectory, hargs, hmsgs]
    · cases hmsgs : (mkdirLoop st.currentDirectory st.store args).2 with
      | nil => simp [makeDirectory, hargs, hmsgs, intercalate_nil]
      | cons m ms =>
        obtain ⟨x, _, ho⟩ := mkdirLoop_msgs st.currentDirectory args st.store m
          (by rw [hmsgs]; exact List.mem_cons_self m ms)
        have hpos : 0 < m.length := by
          rcases ho with ho | ho <;> (rw [ho]; exact mkdir_msg_pos _ _)
        have hne2 := intercalate_ne_of_head_pos m ms hpos
        simp [makeDirectory, hargs, hmsgs, hne2]
  · intro args
    by_cases hargs : args = []
    · subst hargs
      exact ⟨[], by simp [makeDirectory, failRes], by simp⟩
    · obtain ⟨created, hcr, hall⟩ := mkdirLoop_append st.currentDirectory args st.store
      refine ⟨created, ?_, hall⟩
      rw [show (makeDirectory st args).2.store =
        (mkdirLoop st.currentDirectory st.store args).1 from by simp [makeDirectory, hargs]]
      exact hcr
  · intro args m hm
    exact mkdirLoop_msgs st.currentDirectory args st.store m hm

/-- C4 witness: on the bootstrap state, `mkdir` of the occupied path
`Documents` and of the fresh path `proj` shows the per-path messages,
the aggregate failure, and the surviving creation of `proj`. -/
theorem claim_C4_witness :
    (makeDirectory bootstrapState ["Documents", "proj"]).1.success = false ∧
    (makeDirectory bootstrapState ["Documents", "proj"]).1.output =
      "mkdir: cannot create directory 'Documents': File exists" ∧
    getFileSystemItem (makeDirectory bootstrapState ["Documents", "proj"]).2.store
        "/home/user/proj" =
      some ⟨"/home/user/proj", "proj", "directory", none, "drwxr-xr-x", "4096"⟩ := by
  have h := (claim_C4 bootstrapState).2.2.2.2.1 "Documents" "proj" (by decide) (by decide)
    (Or.inl (by decide))
  exact ⟨h.1, h.2.1, h.2.2.2.trans (by decide)⟩

/-- C5 counterexample: the claim says the redirected file's size is the
decimal byte length of the text, but the source stores
`content.length.toString()`: for the one-character, two-byte content
`é`, `echo é > f.txt` records size `"1"` while the byte length is 2. -/
theorem claim_C5_counterexample :
    (getFileSystemItem (echo bootstrapState ["é", ">", "f.txt"]).2.store
        "/home/user/f.txt").map (fun i => i.size) = some "1" ∧
    utf8ByteLength "é" = 2 ∧
    (getFileSystemItem (echo bootstrapState ["é", ">", "f.txt"]).2.store
        "/home/user/f.txt").map (fun i => i.size) ≠
      some (toString (utf8ByteLength "é")) := by
  refine ⟨by decide, by decide, by decide⟩

/-- C5 (amended): `echo` always succeeds; without a `>` token followed
by a further token its output is the arguments joined by single spaces
with every `"` removed and the store is untouched; with redirection it
outputs nothing and writes a file node at the resolved path of the token
after `>`, whose content is the joined quote-stripped text before the
`>` and whose size is the decimal rendering of that text's length in
characters (UTF-16 code units in the source) — which equals the byte
length only for ASCII text; `echo "hi" > out.txt` still yields content
`hi` and size `2`. -/
theorem claim_C5 (st : PState) (args : List String) :
    (echo st args).1.success = true ∧
    (args = [] → (echo st args).1.output = "") ∧
    (args.findIdx? (fun a => a = ">") = none →
      (echo st args).1.output = stripQuotes (String.intercalate " " args) ∧
      (echo st args).2 = st) ∧
    (∀ i, args.findIdx? (fun a => a = ">") = some i → ¬ i + 1 < args.length →
      (echo st args).1.output = stripQuotes (String.intercalate " " args) ∧
      (echo st args).2 = st) ∧
    (∀ i, args.findIdx? (fun a => a = ">") = some i → i + 1 < args.length →
      (echo st args).1.output = "" ∧
      getFileSystemItem (echo st args).2.store
          (resolvePath st.currentDirectory ((args.get? (i + 1)).getD "")) =
        some ⟨resolvePath st.currentDirectory ((args.get? (i + 1)).getD ""),
          lastSegOr ((args.get? (i + 1)).getD ""), "file",
          some (stripQuotes (String.intercalate " " (args.take i))), "-rw-r--r--",
          toString (stripQuotes (String.intercalate " " (args.take i))).length⟩) := by
  refine ⟨?_, ?_, ?_, ?_, ?_⟩
  · unfold echo
    try dsimp only
    split_ifs with h
    · simp [okRes]
    · split
      · split_ifs <;> simp [okRes]
      · simp [okRes]
  · intro h
    simp [echo, h, okRes]
  · intro h
    by_cases ha : args = []
    · subst ha; simp [echo, okRes]; decide
    · simp [echo, ha, h, okRes]
  · intro i hi hlt
    have ha : args ≠ [] := by
      intro hnil; rw [hnil] at hi; simp [List.findIdx?] at hi
    simp [echo, ha, hi, hlt, okRes]
  · intro i hi hlt
    have ha : args ≠ [] := by
      intro hnil; rw [hnil] at hi; simp [List.findIdx?] at hi
    have h1 : (echo st args).1.output = "" := by
      simp [echo, ha, hi, hlt, okRes]
    refine ⟨h1, ?_⟩
    have h2 : (echo st args).2.store = createFileSystemItem st.store
        ⟨resolvePath st.currentDirectory ((args.get? (i + 1)).getD ""),
          lastSegOr ((args.get? (i + 1)).getD ""), "file",
          some (stripQuotes (String.intercalate " " (args.take i))), "-rw-r--r--",
          toString (stripQuotes (String.intercalate " " (args.take i))).length⟩ := by
      simp [echo, ha, hi, hlt]
    rw [h2]
    exact get_create_self st.store _

/-- C5 witness: `echo "hi" > out.txt` (three whitespace tokens) writes
`/home/user/out.txt` with content `hi` and size `2`, with empty
output. -/
theorem claim_C5_witness :
    (echo bootstrapState ["\"hi\"", ">", "out.txt"]).1.output = "" ∧
    getFileSystemItem (echo bootstrapState ["\"hi\"", ">", "out.txt"]).2.store
        "/home/user/out.txt" =
      some ⟨"/home/user/out.txt", "out.txt", "file", some "hi", "-rw-r--r--", "2"⟩ := by
  have h := (claim_C5 bootstrapState ["\"hi\"", ">", "out.txt"]).2.2.2.2 1
    (by decide) (by decide)
  exact ⟨h.1, h.2.trans (by decide)⟩


/-- C10 (implicit): `ls` never checks that its target is a directory —
for every existing node at the resolved target path, including file
nodes, it succeeds and (in the default format) lists the sorted names of
the nodes whose derived parent is that path; its only failure is a
missing target, reported as "cannot access '<target>': No such file or
directory". -/
theorem claim_C10 (st : PState) (args : List String) :
    (fileSystemItemExists st.store
        (resolvePath st.currentDirectory
          ((args.find? (fun a => !(strStartsWith a "-"))).getD st.currentDirectory)) = false →
      (listDirectory st args).1.success = false ∧
      (listDirectory st args).1.error = some "No such file or directory" ∧
      (listDirectory st args).1.output =
        "ls: cannot access '" ++
          ((args.find? (fun a => !(strStartsWith a "-"))).getD st.currentDirectory) ++
          "': No such file or directory") ∧
    (fileSystemItemExists st.store
        (resolvePath st.currentDirectory
          ((args.find? (fun a => !(strStartsWith a "-"))).getD st.currentDirectory)) = true →
      (listDirectory st args).1.success = true ∧
      (listDirectory st args).2 = st ∧
      ((args.contains "-l" || args.contains "-la" || args.contains "-al") = false →
        (listDirectory st args).1.output =
          String.intercalate "  " (sortStrings
            (((getDirectoryContents st.store
                (resolvePath st.currentDirectory
                  ((args.find? (fun a => !(strStartsWith a "-"))).getD
                    st.currentDirectory))).filter
              (fun item =>
                (args.contains "-a" || args.contains "-la" || args.contains "-al") ||
                  !(strStartsWith item.name "."))).map (fun i => i.name))))) := by
  constructor
  · intro h
    simp [listDirectory, h, failRes]
  · intro h
    refine ⟨?_, ?_, ?_⟩
    · unfold listDirectory
      try dsimp only
      rw [if_neg (by simp [h])]
      split_ifs <;> simp [okRes]
    · unfold listDirectory
      try dsimp only
      rw [if_neg (by simp [h])]
      split_ifs <;> simp [okRes]
    · intro hlf
      unfold listDirectory
      try dsimp only
      rw [if_neg (by simp [h])]
      rw [if_neg (by rw [hlf]; decide)]
      simp [okRes]

/-- C10 witness: on the bootstrap state, `ls` of the file node
`.bashrc` succeeds with an empty listing, while `ls` of a missing path
fails with the "cannot access" message. -/
theorem claim_C10_witness :
    (listDirectory bootstrapState ["/home/user/.bashrc"]).1.success = true ∧
    (listDirectory bootstrapState ["/home/user/.bashrc"]).1.output = "" ∧
    (listDirectory bootstrapState ["/nope"]).1.success = false ∧
    (listDirectory bootstrapState ["/nope"]).1.output =
      "ls: cannot access '/nope': No such file or directory" := by
  have h1 := (claim_C10 bootstrapState ["/home/user/.bashrc"]).2 (by decide)
  have h2 := (claim_C10 bootstrapState ["/nope"]).1 (by decide)
  exact ⟨h1.1, (h1.2.2 (by decide)).trans (by decide), h2.1, h2.2.2.trans (by decide)⟩

/-- C8: when a node exists at the resolved source, `mv src dst` has on
the store exactly the effect of `cp src dst` followed by deleting the
resolved source path; both report success with empty output, and (when
the destination differs from the source) the destination carries the
source's kind, content, permissions and size while the source is gone.
When the source is missing both commands fail with their respective
"cannot stat '<src>': No such file or directory" output and leave the
store unchanged. -/
theorem claim_C8 (st : PState) (a b : String) :
    (getFileSystemItem st.store (resolvePath st.currentDirectory a) = none →
      (moveFile st [a, b]).1.success = false ∧
      (moveFile st [a, b]).1.output =
        "mv: cannot stat '" ++ a ++ "': No such file or directory" ∧
      (moveFile st [a, b]).2.store = st.store ∧
      (copyFile st [a, b]).1.success = false ∧
      (copyFile st [a, b]).1.output =
        "cp: cannot stat '" ++ a ++ "': No such file or directory" ∧
      (copyFile st [a, b]).2.store = st.store) ∧
    (∀ f, getFileSystemItem st.store (resolvePath st.currentDirectory a) = some f →
      (moveFile st [a, b]).2.store =
        (deleteFileSystemItem (copyFile st [a, b]).2.store
          (resolvePath st.currentDirectory a)).2 ∧
      (moveFile st [a, b]).1.success = true ∧
      (moveFile st [a, b]).1.output = "" ∧
      (copyFile st [a, b]).1.success = true ∧
      (copyFile st [a, b]).1.output = "" ∧
      (resolvePath st.currentDirectory b ≠ resolvePath st.currentDirectory a →
        getFileSystemItem (moveFile st [a, b]).2.store (resolvePath st.currentDirectory b) =
          some ⟨resolvePath st.currentDirectory b, lastSegOr b, f.type, f.content,
            f.permissions, f.size⟩ ∧
        getFileSystemItem (moveFile st [a, b]).2.store
          (resolvePath st.currentDirectory a) = none)) := by
  constructor
  · intro h
    simp [moveFile, copyFile, h, failRes]
  · intro f hf
    have hmv : (moveFile st [a, b]).2.store =
        (deleteFileSystemItem
          (createFileSystemItem st.store
            ⟨resolvePath st.currentDirectory b, lastSegOr b, f.type, f.content,
              f.permissions, f.size⟩)
          (resolvePath st.currentDirectory a)).2 := by
      simp [moveFile, hf]
    have hcp : (copyFile st [a, b]).2.store =
        createFileSystemItem st.store
          ⟨resolvePath st.currentDirectory b, lastSegOr b, f.type, f.content,
            f.permissions, f.size⟩ := by
      simp [copyFile, hf]
    refine ⟨by rw [hmv, hcp], by simp [moveFile, hf], by simp [moveFile, hf],
      by simp [copyFile, hf], by simp [copyFile, hf], ?_⟩
    intro hne
    constructor
    · rw [hmv, get_delete_other _ _ _ hne]
      exact get_create_self st.store _
    · rw [hmv]
      exact get_delete_self _ _

/-- C8 witness: moving the bootstrap `.bashrc` file to a fresh path
copies its attributes to the destination and removes the source. -/
theorem claim_C8_witness :
    (moveFile bootstrapState [".bashrc", "moved.txt"]).2.store =
      (deleteFileSystemItem (copyFile bootstrapState [".bashrc", "moved.txt"]).2.store
        "/home/user/.bashrc").2 ∧
    getFileSystemItem (moveFile bootstrapState [".bashrc", "moved.txt"]).2.store
        "/home/user/moved.txt" =
      some ⟨"/home/user/moved.txt", "moved.txt", "file", some "# .bashrc",
        "-rw-r--r--", "3526"⟩ ∧
    getFileSystemItem (moveFile bootstrapState [".bashrc", "moved.txt"]).2.store
        "/home/user/.bashrc" = none := by
  have h := (claim_C8 bootstrapState ".bashrc" "moved.txt").2
    ⟨"/home/user/.bashrc", ".bashrc", "file", some "# .bashrc", "-rw-r--r--", "3526"⟩
    (by decide)
  have h6 := h.2.2.2.2.2 (by decide)
  exact ⟨h.1, h6.1.trans (by decide), h6.2⟩

/-- C1 counterexample: from the bootstrap state, `touch /x/y` creates a
node at `/x/y` although its derived parent `/x` has no node — so the
parent-existence invariant is not preserved by every command. -/
theorem claim_C1_counterexample :
    parentPath "/x/y" = "/x" ∧
    fileSystemItemExists
      (executeCommand defaultEnv bootstrapState "touch /x/y").2.store "/x/y" = true ∧
    fileSystemItemExists
      (executeCommand defaultEnv bootstrapState "touch /x/y").2.store "/x" = false := by
  refine ⟨by decide, by decide, by decide⟩

/-- C1 (amended): only `mkdir` enforces the parent rule — when the
resolved path is absent and its derived parent (other than `/`) has no
node, `mkdir` fails with the "No such file or directory" message and
leaves the store unchanged; but `touch`, `echo` with redirection, `cp`,
`mv` (given an existing source) and `wget` (at the resolved path of the
URL's final segment) each create a node at such a path anyway, leaving
the parent still absent — so the parent-existence invariant does not
hold in every reachable state. -/
theorem claim_C1_amended (st : PState) (arg : String)
    (hne : fileSystemItemExists st.store (resolvePath st.currentDirectory arg) = false)
    (hpar : fileSystemItemExists st.store
      (parentPath (resolvePath st.currentDirectory arg)) = false)
    (hroot : parentPath (resolvePath st.currentDirectory arg) ≠ "/") :
    (makeDirectory st [arg]).1.success = false ∧
    (makeDirectory st [arg]).1.output =
      "mkdir: cannot create directory '" ++ arg ++ "': No such file or directory" ∧
    (makeDirectory st [arg]).2.store = st.store ∧
    (fileSystemItemExists (createFile st [arg]).2.store
        (resolvePath st.currentDirectory arg) = true ∧
      fileSystemItemExists (createFile st [arg]).2.store
        (parentPath (resolvePath st.currentDirectory arg)) = false) ∧
    (fileSystemItemExists (echo st ["t", ">", arg]).2.store
        (resolvePath st.currentDirectory arg) = true ∧
      fileSystemItemExists (echo st ["t", ">", arg]).2.store
        (parentPath (resolvePath st.currentDirectory arg)) = false) ∧
    (∀ src f, getFileSystemItem st.store (resolvePath st.currentDirectory src) = some f →
      fileSystemItemExists (copyFile st [src, arg]).2.store
          (resolvePath st.currentDirectory arg) = true ∧
        fileSystemItemExists (copyFile st [src, arg]).2.store
          (parentPath (resolvePath st.currentDirectory arg)) = false) ∧
    (∀ src f, getFileSystemItem st.store (resolvePath st.currentDirectory src) = some f →
      resolvePath st.currentDirectory src ≠ resolvePath st.currentDirectory arg →
      fileSystemItemExists (moveFile st [src, arg]).2.store
          (resolvePath st.currentDirectory arg) = true ∧
        fileSystemItemExists (moveFile st [src, arg]).2.store
          (parentPath (resolvePath st.currentDirectory arg)) = false) ∧
    (∀ env url,
      fileSystemItemExists st.store
        (parentPath (resolvePath st.currentDirectory (lastSegOrIndex url))) = false →
      parentPath (resolvePath st.currentDirectory (lastSegOrIndex url)) ≠ "/" →
      fileSystemItemExists (executeWget env st [url]).2.store
          (resolvePath st.currentDirectory (lastSegOrIndex url)) = true ∧
        fileSystemItemExists (executeWget env st [url]).2.store
          (parentPath (resolvePath st.currentDirectory (lastSegOrIndex url))) = false) := by
  have hfullne : resolvePath st.currentDirectory arg ≠ "/" := by
    intro hc
    exact hroot (by rw [hc]; rfl)
  have hppne : parentPath (resolvePath st.currentDirectory arg) ≠
      resolvePath st.currentDirectory arg :=
    parentPath_ne _ hfullne
  refine ⟨?_, ?_, ?_, ⟨?_, ?_⟩, ⟨?_, ?_⟩, ?_, ?_, ?_⟩
  · simp [makeDirectory, mkdirLoop, hne, hpar, hroot, intercalate_single]
  · simp [makeDirectory, mkdirLoop, hne, hpar, hroot, intercalate_single]
  · simp [makeDirectory, mkdirLoop, hne, hpar, hroot]
  · have hstore : (createFile st [arg]).2.store = createFileSystemItem st.store
        ⟨resolvePath st.currentDirectory arg, lastSegOr arg, "file", some "",
          "-rw-r--r--", "0"⟩ := by
      simp [createFile, touchLoop, hne]
    rw [hstore]
    unfold fileSystemItemExists
    rw [get_create_self st.store _]
    rfl
  · have hstore : (createFile st [arg]).2.store = createFileSystemItem st.store
        ⟨resolvePath st.currentDirectory arg, lastSegOr arg, "file", some "",
          "-rw-r--r--", "0"⟩ := by
      simp [createFile, touchLoop, hne]
    rw [hstore]
    unfold fileSystemItemExists
    rw [get_create_other st.store _ _ hppne]
    exact hpar
  · have hstore : (echo st ["t", ">", arg]).2.store = createFileSystemItem st.store
        ⟨resolvePath st.currentDirectory arg, lastSegOr arg, "file",
          some (stripQuotes (String.intercalate " " ["t"])), "-rw-r--r--",
          toString (stripQuotes (String.intercalate " " ["t"])).length⟩ := by
      rfl
    rw [hstore]
    unfold fileSystemItemExists
    rw [get_create_self st.store _]
    rfl
  · have hstore : (echo st ["t", ">", arg]).2.store = createFileSystemItem st.store
        ⟨resolvePath st.currentDirectory arg, lastSegOr arg, "file",
          some (stripQuotes (String.intercalate " " ["t"])), "-rw-r--r--",
          toString (stripQuotes (String.intercalate " " ["t"])).length⟩ := by
      rfl
    rw [hstore]
    unfold fileSystemItemExists
    rw [get_create_other st.store _ _ hppne]
    exact hpar
  · intro src f hsrc
    have hstore : (copyFile st [src, arg]).2.store = createFileSystemItem st.store
        ⟨resolvePath st.currentDirectory arg, lastSegOr arg, f.type, f.content,
          f.permissions, f.size⟩ := by
      simp [copyFile, hsrc]
    constructor
    · rw [hstore]
      unfold fileSystemItemExists
      rw [get_create_self st.store _]
      rfl
    · rw [hstore]
      unfold fileSystemItemExists
      rw [get_create_other st.store _ _ hppne]
      exact hpar
  · intro src f hsrc hdiff
    have hstore : (moveFile st [src, arg]).2.store =
        (deleteFileSystemItem
          (createFileSystemItem st.store
            ⟨resolvePath st.currentDirectory arg, lastSegOr arg, f.type, f.content,
              f.permissions, f.size⟩)
          (resolvePath st.currentDirectory src)).2 := by
      simp [moveFile, hsrc]
    constructor
    · rw [hstore]
      unfold fileSystemItemExists
      rw [get_delete_other _ _ _ (fun hc => hdiff hc.symm)]
      rw [get_create_self st.store _]
      rfl
    · rw [hstore]
      unfold fileSystemItemExists
      by_cases hps : parentPath (resolvePath st.currentDirectory arg) =
          resolvePath st.currentDirectory src
      · rw [hps, get_delete_self]
        rfl
      · rw [get_delete_other _ _ _ hps]
        rw [get_create_other st.store _ _ hppne]
        exact hpar
  · intro env url hqpar hqroot
    have hqfullne : resolvePath st.currentDirectory (lastSegOrIndex url) ≠ "/" := by
      intro hc
      exact hqroot (by rw [hc]; rfl)
    have hqppne : parentPath (resolvePath st.currentDirectory (lastSegOrIndex url)) ≠
        resolvePath st.currentDirectory (lastSegOrIndex url) :=
      parentPath_ne _ hqfullne
    have hstore : (executeWget env st [url]).2.store = createFileSystemItem st.store
        ⟨resolvePath st.currentDirectory (lastSegOrIndex url), lastSegOrIndex url, "file",
          some ("<!DOCTYPE html>\n<html>\n<head><title>Downloaded content</title></head>\n<body><h1>Sample content from " ++
            url ++ "</h1></body>\n</html>"), "-rw-r--r--", "2048"⟩ := by
      simp [executeWget]
    constructor
    · rw [hstore]
      unfold fileSystemItemExists
      rw [get_create_self st.store _]
      rfl
    · rw [hstore]
      unfold fileSystemItemExists
      rw [get_create_other st.store _ _ hqppne]
      exact hqpar

/-- C1 amended witness: the concrete instance at the absent parent `/x`
(and, for `wget`, at the orphaned working directory `/gone`). -/
theorem claim_C1_amended_witness :
    (makeDirectory bootstrapState ["/x/y"]).1.success = false ∧
    fileSystemItemExists (createFile bootstrapState ["/x/y"]).2.store "/x/y" = true ∧
    fileSystemItemExists (createFile bootstrapState ["/x/y"]).2.store "/x" = false ∧
    fileSystemItemExists (echo bootstrapState ["t", ">", "/x/y"]).2.store "/x/y" = true ∧
    fileSystemItemExists
      (copyFile bootstrapState ["/home/user/.bashrc", "/x/y"]).2.store "/x/y" = true ∧
    fileSystemItemExists
      (moveFile bootstrapState ["/home/user/.bashrc", "/x/y"]).2.store "/x" = false ∧
    fileSystemItemExists (executeWget defaultEnv orphanCwdState ["u"]).2.store
      "/gone/u" = true ∧
    fileSystemItemExists (executeWget defaultEnv orphanCwdState ["u"]).2.store
      "/gone" = false := by
  have h := claim_C1_amended bootstrapState "/x/y" (by decide) (by decide) (by decide)
  have hg := claim_C1_amended orphanCwdState "/x/y" (by decide) (by decide) (by decide)
  have hw := hg.2.2.2.2.2.2.2 defaultEnv "u" (by decide) (by decide)
  refine ⟨h.1, ?_, ?_, ?_, ?_, ?_, ?_, ?_⟩
  · exact (by decide : fileSystemItemExists (createFile bootstrapState ["/x/y"]).2.store
      "/x/y" = fileSystemItemExists (createFile bootstrapState ["/x/y"]).2.store
      (resolvePath bootstrapState.currentDirectory "/x/y")) ▸ h.2.2.2.1.1
  · exact (by decide : fileSystemItemExists (createFile bootstrapState ["/x/y"]).2.store
      "/x" = fileSystemItemExists (createFile bootstrapState ["/x/y"]).2.store
      (parentPath (resolvePath bootstrapState.currentDirectory "/x/y"))) ▸ h.2.2.2.1.2
  · exact (by decide : fileSystemItemExists
      (echo bootstrapState ["t", ">", "/x/y"]).2.store "/x/y" = fileSystemItemExists
      (echo bootstrapState ["t", ">", "/x/y"]).2.store
      (resolvePath bootstrapState.currentDirectory "/x/y")) ▸ h.2.2.2.2.1.1
  · exact (by decide : fileSystemItemExists
      (copyFile bootstrapState ["/home/user/.bashrc", "/x/y"]).2.store "/x/y" =
      fileSystemItemExists (copyFile bootstrapState ["/home/user/.bashrc", "/x/y"]).2.store
      (resolvePath bootstrapState.currentDirectory "/x/y")) ▸
      (h.2.2.2.2.2.1 "/home/user/.bashrc"
        ⟨"/home/user/.bashrc", ".bashrc", "file", some "# .bashrc", "-rw-r--r--", "3526"⟩
        (by decide)).1
  · exact (by decide : fileSystemItemExists
      (moveFile bootstrapState ["/home/user/.bashrc", "/x/y"]).2.store "/x" =
      fileSystemItemExists (moveFile bootstrapState ["/home/user/.bashrc", "/x/y"]).2.store
      (parentPath (resolvePath bootstrapState.currentDirectory "/x/y"))) ▸
      (h.2.2.2.2.2.2.1 "/home/user/.bashrc"
        ⟨"/home/user/.bashrc", ".bashrc", "file", some "# .bashrc", "-rw-r--r--", "3526"⟩
        (by decide) (by decide)).2
  · exact (by decide : fileSystemItemExists
      (executeWget defaultEnv orphanCwdState ["u"]).2.store "/gone/u" =
      fileSystemItemExists (executeWget defaultEnv orphanCwdState ["u"]).2.store
      (resolvePath orphanCwdState.currentDirectory (lastSegOrIndex "u"))) ▸ hw.1
  · exact (by decide : fileSystemItemExists
      (executeWget defaultEnv orphanCwdState ["u"]).2.store "/gone" =
      fileSystemItemExists (executeWget defaultEnv orphanCwdState ["u"]).2.store
      (parentPath (resolvePath orphanCwdState.currentDirectory (lastSegOrIndex "u")))) ▸ hw.2

/-- C9 counterexample: with the current directory `/home/user` and an
existing child `/home/user/docs/a.txt`, `find docs` outputs nothing —
the handler queries the store with the literal argument `docs` instead
of the resolved path `/home/user/docs`, whose children the claim says it
lists; and `find` is not failure-free either: `find /home/user -name`
(pattern token missing, listing non-empty) returns `success = false`
through the interpreter's catch path. -/
theorem claim_C9_counterexample :
    (executeCommand defaultEnv findCounterSt "find docs").1.output = "" ∧
    String.intercalate "\n"
        ((getDirectoryContents findCounterSt.store
          (resolvePath findCounterSt.currentDirectory "docs")).map (fun i => i.path)) =
      "/home/user/docs/a.txt" ∧
    (executeCommand defaultEnv findCounterSt "find docs").1.output ≠
      String.intercalate "\n"
        ((getDirectoryContents findCounterSt.store
          (resolvePath findCounterSt.currentDirectory "docs")).map (fun i => i.path)) ∧
    (executeCommand defaultEnv findCounterSt "find /home/user -name").1.success = false := by
  refine ⟨by decide, by decide, by decide, by decide⟩

/-- C9 (amended): `find` uses its first argument verbatim (or the
current directory when no argument is given) as the store query key — it
does not resolve it against the current directory; whenever the `-name`
pattern token is present (`'*'` otherwise), it succeeds and outputs the
paths of the queried listing's entries whose name contains the
first-wildcard-stripped pattern as a substring (`'*'` matching
everything). -/
theorem claim_C9_amended (env : Env) (st : PState) (args : List String) (sn : String)
    (h : findSearchName args = some sn) :
    findFiles env st args =
      .ok (okRes st (String.intercalate "\n"
        (((getDirectoryContents st.store (args.headD st.currentDirectory)).filter
            (fun item => sn = "*" || strContains item.name (replaceFirst sn "*" ""))).map
          (fun i => i.path)))) := by
  unfold findFiles
  try dsimp only
  rw [h]

/-- C9 amended witness: the concrete `find docs` instance evaluates to
an empty successful listing (children of the literal key `docs`). -/
theorem claim_C9_amended_witness :
    findFiles defaultEnv findCounterSt ["docs"] = .ok (okRes findCounterSt "") := by
  have h := claim_C9_amended defaultEnv findCounterSt ["docs"] "*" (by decide)
  rw [h]
  exact congrArg Except.ok (by decide)

end WebTermux
